import Mathlib

set_option maxRecDepth 8192
set_option maxHeartbeats 4000000

/-! Shallow embedding of the cabrillo Rust crate (src/lib.rs), a parser for
Cabrillo-format amateur-radio contest logs.  Rust strings are modelled as
lists of characters, machine integers as Nat with explicit bounds, and
fallible Rust code returns Option.  nom's Incomplete and Error outcomes are
both modelled as none, because the only caller (parse_line / parse_tag)
treats every nom failure alike. -/

/-- ASCII decimal digit, as tested by nom::character::is_digit and by the
regular-expression class [0-9]. -/
def is_ascii_digit (c : Char) : Bool := 48 ≤ c.toNat && c.toNat ≤ 57

/-- ASCII letter, the regular-expression class [A-Za-z]. -/
def is_ascii_alpha (c : Char) : Bool :=
  (65 ≤ c.toNat && c.toNat ≤ 90) || (97 ≤ c.toNat && c.toNat ≤ 122)

/-- The regular-expression class [A-Za-z0-9]. -/
def is_ascii_alphanumeric (c : Char) : Bool := is_ascii_alpha c || is_ascii_digit c

/-- Rust char::is_whitespace: the Unicode White_Space code points. -/
def is_rust_whitespace (c : Char) : Bool :=
  (9 ≤ c.toNat && c.toNat ≤ 13) || c.toNat == 32 || c.toNat == 133 || c.toNat == 160 ||
  c.toNat == 5760 || (8192 ≤ c.toNat && c.toNat ≤ 8202) || c.toNat == 8232 ||
  c.toNat == 8233 || c.toNat == 8239 || c.toNat == 8287 || c.toNat == 12288

/-- Rust str::trim: remove whitespace from both ends. -/
def rust_trim (l : List Char) : List Char :=
  ((l.dropWhile is_rust_whitespace).reverse.dropWhile is_rust_whitespace).reverse

/-- Value of a one-character string under u8::from_str_radix(s, 10): only the
ASCII digits parse (char::to_digit with radix 10). -/
def digit_val (c : Char) : Option Nat :=
  if is_ascii_digit c then some (c.toNat - 48) else none

/-- Rust str::parse::<u32> (u32::from_str): an optional leading plus sign,
then one or more ASCII digits, and the value must fit in 32 bits. -/
def parse_u32 (s : List Char) : Option Nat :=
  let digits := match s with
    | '+' :: r => r
    | r => r
  if digits ≠ [] ∧ digits.all is_ascii_digit then
    let n := digits.foldl (fun a c => a * 10 + (c.toNat - 48)) 0
    if n < 4294967296 then some n else none
  else none

/-- chrono NaiveDateTime at minute precision, as produced by parsing with the
format string used throughout the crate. -/
structure DateTime where
  year : Nat
  month : Nat
  day : Nat
  hour : Nat
  minute : Nat
  deriving DecidableEq

/-- Proleptic Gregorian leap year. -/
def is_leap_year (y : Nat) : Bool := y % 4 == 0 && (y % 100 != 0 || y % 400 == 0)

/-- Number of days in a month of the proleptic Gregorian calendar. -/
def days_in_month (y m : Nat) : Nat :=
  if m == 2 then (if is_leap_year y then 29 else 28)
  else if m == 4 || m == 6 || m == 9 || m == 11 then 30
  else 31

/-- Numeric value of two ASCII digit characters. -/
def digits2 (a b : Char) : Nat := (a.toNat - 48) * 10 + (b.toNat - 48)

/-- Numeric value of four ASCII digit characters. -/
def digits4 (a b c d : Char) : Nat := digits2 a b * 100 + digits2 c d

/-- Model of chrono NaiveDateTime::parse_from_str with format string
"%Y-%m-%d %H%M", applied to a token of the exact shape produced by the
datetime regular expression: four digits, dash, two digits, dash, two digits,
space, four digits.  chrono validates the calendar date (month 1-12, day
within the month, accounting for leap years) and the time of day (hour at
most 23, minute at most 59); any other input shape fails. -/
def parse_datetime (t : List Char) : Option DateTime :=
  match t with
  | [y1, y2, y3, y4, s1, m1, m2, s2, d1, d2, s3, h1, h2, n1, n2] =>
    if (s1 == '-' && s2 == '-' && s3 == ' ' &&
        [y1, y2, y3, y4, m1, m2, d1, d2, h1, h2, n1, n2].all is_ascii_digit) then
      let y := digits4 y1 y2 y3 y4
      let mo := digits2 m1 m2
      let d := digits2 d1 d2
      let h := digits2 h1 h2
      let mi := digits2 n1 n2
      if 1 ≤ mo ∧ mo ≤ 12 ∧ 1 ≤ d ∧ d ≤ days_in_month y mo ∧ h ≤ 23 ∧ mi ≤ 59 then
        some ⟨y, mo, d, h, mi⟩
      else none
    else none
  | _ => none

/-- Model of Rust f32::from_str: optional sign, then inf / infinity / nan
(case-insensitive) or a decimal mantissa with optional fraction and optional
exponent.  The numeric value is computed with Float (f64) scientific
rounding; no claim inspects the stored version value, only whether parsing
succeeds. -/
def parse_f32 (s0 : List Char) : Option Float :=
  let signAndRest : Bool × List Char := match s0 with
    | '+' :: r => (false, r)
    | '-' :: r => (true, r)
    | r => (false, r)
  let neg := signAndRest.1
  let s := signAndRest.2
  let low := s.map Char.toLower
  if low = ("inf".data) ∨ low = ("infinity".data) then
    some (if neg then (-1.0) / 0.0 else 1.0 / 0.0)
  else if low = ("nan".data) then some (0.0 / 0.0)
  else
    let mant := s.takeWhile (fun c => !(c == 'e' || c == 'E'))
    let expPart := s.drop mant.length
    let intPart := mant.takeWhile is_ascii_digit
    let afterInt := mant.drop intPart.length
    let fracOk : Option (List Char) := match afterInt with
      | [] => some []
      | '.' :: f => if f.all is_ascii_digit then some f else none
      | _ => none
    match fracOk with
    | none => none
    | some frac =>
      if intPart = [] ∧ frac = [] then none
      else
        let expOk : Option (Bool × Nat) := match expPart with
          | [] => some (false, 0)
          | _ :: rest =>
            let se : Bool × List Char := match rest with
              | '+' :: r2 => (false, r2)
              | '-' :: r2 => (true, r2)
              | r2 => (false, r2)
            if se.2 ≠ [] ∧ se.2.all is_ascii_digit then
              some (se.1, se.2.foldl (fun a c => a * 10 + (c.toNat - 48)) 0)
            else none
        match expOk with
        | none => none
        | some (eneg, e) =>
          let m := (intPart ++ frac).foldl (fun a c => a * 10 + (c.toNat - 48)) 0
          let fl := if eneg then Float.ofScientific m true (e + frac.length)
            else if e < frac.length then Float.ofScientific m true (frac.length - e)
            else Float.ofScientific m false (e - frac.length)
          some (if neg then -fl else fl)

/-- pub enum Band. -/
inductive Band where
  | All | Band160M | Band80M | Band40M | Band20M | Band15M | Band10M | Band6M | Band4M
  | Band2M | Band222 | Band432 | Band902 | Band1_2G | Band2_3G | Band3_4G | Band5_7G
  | Band10G | Band24G | Band47G | Band75G | Band123G | Band134G | Band241G | Light
  | Vhf3Band | VhfFmOnly
  deriving DecidableEq

/-- impl FromStr for Band. -/
def Band.from_str (s : List Char) : Option Band :=
  if s = ("ALL".data) then some Band.All
  else if s = ("160M".data) then some Band.Band160M
  else if s = ("80M".data) then some Band.Band80M
  else if s = ("40M".data) then some Band.Band40M
  else if s = ("20M".data) then some Band.Band20M
  else if s = ("15M".data) then some Band.Band15M
  else if s = ("10M".data) then some Band.Band10M
  else if s = ("6M".data) then some Band.Band6M
  else if s = ("4M".data) then some Band.Band4M
  else if s = ("2M".data) then some Band.Band2M
  else if s = ("222".data) then some Band.Band222
  else if s = ("432".data) then some Band.Band432
  else if s = ("902".data) then some Band.Band902
  else if s = ("1.2G".data) then some Band.Band1_2G
  else if s = ("2.3G".data) then some Band.Band2_3G
  else if s = ("3.4G".data) then some Band.Band3_4G
  else if s = ("5.7G".data) then some Band.Band5_7G
  else if s = ("10G".data) then some Band.Band10G
  else if s = ("24G".data) then some Band.Band24G
  else if s = ("47G".data) then some Band.Band47G
  else if s = ("75G".data) then some Band.Band75G
  else if s = ("123G".data) then some Band.Band123G
  else if s = ("134G".data) then some Band.Band134G
  else if s = ("241G".data) then some Band.Band241G
  else if s = ("LIGHT".data) then some Band.Light
  else if s = ("VHF-3-BAND".data) then some Band.Vhf3Band
  else if s = ("VHF-FM-ONLY".data) then some Band.VhfFmOnly
  else none

/-- pub enum Frequency: a kilohertz magnitude (u32) or the light sentinel. -/
inductive Frequency where
  | Khz (freq : Nat)
  | Light
  deriving DecidableEq

/-- impl TryFrom of Frequency for Band: check the frequency against the fixed
inclusive kHz ranges, in source order. -/
def Band.try_from (other : Frequency) : Option Band :=
  match other with
  | Frequency.Khz freq =>
    if 1800 ≤ freq ∧ freq ≤ 2000 then some Band.Band160M
    else if 3500 ≤ freq ∧ freq ≤ 4000 then some Band.Band80M
    else if 7000 ≤ freq ∧ freq ≤ 7300 then some Band.Band40M
    else if 14000 ≤ freq ∧ freq ≤ 14350 then some Band.Band20M
    else if 21000 ≤ freq ∧ freq ≤ 21450 then some Band.Band15M
    else if 28000 ≤ freq ∧ freq ≤ 29700 then some Band.Band10M
    else if 50000 ≤ freq ∧ freq ≤ 54000 then some Band.Band6M
    else if 70000 ≤ freq ∧ freq ≤ 70500 then some Band.Band4M
    else if 144000 ≤ freq ∧ freq ≤ 148000 then some Band.Band2M
    else if 219000 ≤ freq ∧ freq ≤ 225000 then some Band.Band222
    else if 420000 ≤ freq ∧ freq ≤ 450000 then some Band.Band432
    else if 902000 ≤ freq ∧ freq ≤ 928000 then some Band.Band902
    else if 1240000 ≤ freq ∧ freq ≤ 1300000 then some Band.Band1_2G
    else if 2390000 ≤ freq ∧ freq ≤ 2450000 then some Band.Band2_3G
    else if 3300000 ≤ freq ∧ freq ≤ 3500000 then some Band.Band3_4G
    else if 5650000 ≤ freq ∧ freq ≤ 5925000 then some Band.Band5_7G
    else if 10000000 ≤ freq ∧ freq ≤ 10500000 then some Band.Band10G
    else if 24000000 ≤ freq ∧ freq ≤ 24250000 then some Band.Band24G
    else if 47000000 ≤ freq ∧ freq ≤ 47200000 then some Band.Band47G
    else if 76000000 ≤ freq ∧ freq ≤ 81000000 then some Band.Band75G
    else if 122250000 ≤ freq ∧ freq ≤ 123000000 then some Band.Band123G
    else if 134000000 ≤ freq ∧ freq ≤ 141000000 then some Band.Band134G
    else if 241000000 ≤ freq ∧ freq ≤ 250000000 then some Band.Band241G
    else if 300000000 ≤ freq then some Band.Light
    else none
  | Frequency.Light => some Band.Light

/-- pub enum Mode. -/
inductive Mode where
  | Cw | Phone | Fm | Rtty | Digital | Mixed
  deriving DecidableEq

/-- impl FromStr for Mode. -/
def Mode.from_str (s : List Char) : Option Mode :=
  if s = ("CW".data) then some Mode.Cw
  else if s = ("DIGI".data) then some Mode.Digital
  else if s = ("FM".data) then some Mode.Fm
  else if s = ("RY".data) then some Mode.Rtty
  else if s = ("RTTY".data) then some Mode.Rtty
  else if s = ("PH".data) then some Mode.Phone
  else if s = ("SSB".data) then some Mode.Phone
  else if s = ("MIXED".data) then some Mode.Mixed
  else none

/-- pub struct SignalReport(u8, u8, u8): readability, strength, tone. -/
structure SignalReport where
  readability : Nat
  strength : Nat
  tone : Nat
  deriving DecidableEq

/-- impl FromStr for SignalReport, with the two direct vector index
operations made explicit: the outer Option is none exactly when an index
would be out of bounds (a Rust index panic); the inner Option is the
Ok / Err result of the function.  The chars vector built in the source by
split("") with empty pieces filtered out is exactly the list of characters
of the input. -/
def SignalReport.from_str_checked (s : List Char) : Option (Option SignalReport) :=
  let chars := s
  if chars.length < 2 ∨ chars.length > 3 then some none
  else
    match chars.get? 0, chars.get? 1 with
    | some c0, some c1 =>
      match digit_val c0 with
      | none => some none
      | some readability =>
        match digit_val c1 with
        | none => some none
        | some strength =>
          let toneR : Option Nat := match chars.get? 2 with
            | some c2 => digit_val c2
            | none => some 0
          match toneR with
          | none => some none
          | some tone =>
            some (if 0 < readability ∧ readability ≤ 5 ∧ 0 < strength ∧ strength ≤ 9 ∧ tone ≤ 9
                  then some ⟨readability, strength, tone⟩ else none)
    | _, _ => none

/-- impl FromStr for SignalReport (the Ok / Err result). -/
def SignalReport.from_str (s : List Char) : Option SignalReport :=
  (SignalReport.from_str_checked s).bind id

/-- pub enum OperatorCategory. -/
inductive OperatorCategory where
  | SingleOp | MultiOp | CheckLog
  deriving DecidableEq

/-- impl FromStr for OperatorCategory. -/
def OperatorCategory.from_str (s : List Char) : Option OperatorCategory :=
  if s = ("SINGLE-OP".data) then some OperatorCategory.SingleOp
  else if s = ("MULTI-OP".data) then some OperatorCategory.MultiOp
  else if s = ("CHECKLOG".data) then some OperatorCategory.CheckLog
  else none

/-- pub enum PowerCategory. -/
inductive PowerCategory where
  | High | Low | Qrp
  deriving DecidableEq

/-- impl FromStr for PowerCategory. -/
def PowerCategory.from_str (s : List Char) : Option PowerCategory :=
  if s = ("HIGH".data) then some PowerCategory.High
  else if s = ("LOW".data) then some PowerCategory.Low
  else if s = ("QRP".data) then some PowerCategory.Qrp
  else none

/-- pub enum StationCategory. -/
inductive StationCategory where
  | Fixed | Mobile | Portable | Rover | RoverLimited | RoverUnlimited
  | Expedition | Hq | School
  deriving DecidableEq

/-- impl FromStr for StationCategory. -/
def StationCategory.from_str (s : List Char) : Option StationCategory :=
  if s = ("FIXED".data) then some StationCategory.Fixed
  else if s = ("MOBILE".data) then some StationCategory.Mobile
  else if s = ("PORTABLE".data) then some StationCategory.Portable
  else if s = ("ROVER".data) then some StationCategory.Rover
  else if s = ("ROVER-LIMITED".data) then some StationCategory.RoverLimited
  else if s = ("ROVER-UNLIMITED".data) then some StationCategory.RoverUnlimited
  else if s = ("EXPEDITION".data) then some StationCategory.Expedition
  else if s = ("HQ".data) then some StationCategory.Hq
  else if s = ("SCHOOL".data) then some StationCategory.School
  else none

/-- pub enum TimeCategory. -/
inductive TimeCategory where
  | Hours6 | Hours12 | Hours24
  deriving DecidableEq

/-- impl FromStr for TimeCategory. -/
def TimeCategory.from_str (s : List Char) : Option TimeCategory :=
  if s = ("6-HOURS".data) then some TimeCategory.Hours6
  else if s = ("12-HOURS".data) then some TimeCategory.Hours12
  else if s = ("24-HOURS".data) then some TimeCategory.Hours24
  else none

/-- pub enum TransmitterCategory. -/
inductive TransmitterCategory where
  | One | Two | Limited | Unlimited | Swl
  deriving DecidableEq

/-- impl FromStr for TransmitterCategory. -/
def TransmitterCategory.from_str (s : List Char) : Option TransmitterCategory :=
  if s = ("ONE".data) then some TransmitterCategory.One
  else if s = ("TWO".data) then some TransmitterCategory.Two
  else if s = ("LIMITED".data) then some TransmitterCategory.Limited
  else if s = ("UNLIMITED".data) then some TransmitterCategory.Unlimited
  else if s = ("SWL".data) then some TransmitterCategory.Swl
  else none

/-- pub enum OverlayCategory. -/
inductive OverlayCategory where
  | Classic | Rookie | TbWires | NoviceTech | Over50
  deriving DecidableEq

/-- impl FromStr for OverlayCategory. -/
def OverlayCategory.from_str (s : List Char) : Option OverlayCategory :=
  if s = ("CLASSIC".data) then some OverlayCategory.Classic
  else if s = ("ROOKIE".data) then some OverlayCategory.Rookie
  else if s = ("TB-WIRES".data) then some OverlayCategory.TbWires
  else if s = ("NOVICE-TECH".data) then some OverlayCategory.NoviceTech
  else if s = ("OVER-50".data) then some OverlayCategory.Over50
  else none

/-- nom tag! macro: match an exact literal prefix of the input and return it
together with the remaining input. -/
def tag_p (pat : List Char) (i : List Char) : Option (List Char × List Char) :=
  if pat.isPrefixOf i then some (pat, i.drop pat.length) else none

/-- nom char! macro: match one exact character. -/
def char_p (c : Char) (i : List Char) : Option (Char × List Char) :=
  match i with
  | c2 :: r => if c2 == c then some (c, r) else none
  | [] => none

/-- nom take_while1! macro: the longest nonempty run of characters satisfying
the predicate. -/
def take_while1_p (p : Char → Bool) (i : List Char) : Option (List Char × List Char) :=
  let t := i.takeWhile p
  if t.isEmpty then none else some (t, i.drop t.length)

/-- nom character::complete::multispace0: zero or more space, tab, carriage
return or newline characters. -/
def multispace0 (i : List Char) : Option (List Char × List Char) :=
  let t := i.takeWhile (fun c => c == ' ' || c == '\t' || c == '\r' || c == '\n')
  some (t, i.drop t.length)

/-- nom character::complete::digit1. -/
def digit1 (i : List Char) : Option (List Char × List Char) :=
  take_while1_p is_ascii_digit i

/-- The character test of nom character::complete::alphanumeric1 on &str
input: AsChar::is_alphanum for char, i.e. char::is_alphabetic or an ASCII
decimal digit.  char::is_alphabetic is the Unicode Alphabetic property,
whose tables this model does not reproduce: it is kept as the parameter
is_alphabetic, and every theorem about the QSO tokenizer quantifies over
it, so the theorems hold for the program's actual character class. -/
def nom_is_alphanumeric (is_alphabetic : Char → Bool) (c : Char) : Bool :=
  is_alphabetic c || is_ascii_digit c

/-- nom character::complete::alphanumeric1: one or more characters passing
nom_is_alphanumeric. -/
def alphanumeric1 (is_alphabetic : Char → Bool) (i : List Char) :
    Option (List Char × List Char) :=
  take_while1_p (nom_is_alphanumeric is_alphabetic) i

/-- nom character::complete::not_line_ending: everything before the first
carriage return or newline; a carriage return not followed by a newline is an
error. -/
def not_line_ending (i : List Char) : Option (List Char × List Char) :=
  let before := i.takeWhile (fun c => !(c == '\r' || c == '\n'))
  let rest := i.drop before.length
  match rest with
  | [] => some (before, [])
  | c :: cs =>
    if c == '\r' then
      match cs with
      | '\n' :: _ => some (before, rest)
      | _ => none
    else some (before, rest)

/-- fn is_cabrillo_tag: ASCII uppercase letters, digits, dash, apostrophe
(code point 39) or space.  The source casts the char to u8 (truncating the
code point modulo 256) before nom's is_digit byte test; the model reproduces
the truncation. -/
def is_cabrillo_tag (c : Char) : Bool :=
  (65 ≤ c.toNat && c.toNat ≤ 90) || (48 ≤ c.toNat % 256 && c.toNat % 256 ≤ 57) ||
  c == '-' || c.toNat == 39 || c == ' '

/-- First arm of named! cabrillo_tag: a nonempty run of tag characters, the
literal colon-space separator, then the rest of the line (separated_pair!). -/
def cabrillo_tag_arm1 (i : List Char) : Option ((List Char × List Char) × List Char) :=
  (take_while1_p is_cabrillo_tag i).bind (fun tr =>
    (tag_p (": ".data) tr.2).bind (fun sr =>
      (not_line_ending sr.2).map (fun vr => ((tr.1, vr.1), vr.2))))

/-- named! cabrillo_tag: the separated tag-value pair, or the literal
END-OF-LOG token mapped to an empty value. -/
def cabrillo_tag (i : List Char) : Option ((List Char × List Char) × List Char) :=
  match cabrillo_tag_arm1 i with
  | some res => some res
  | none => (tag_p ("END-OF-LOG".data) i).map (fun tr => ((tr.1, []), tr.2))

/-- The character class of the local and domain parts of the email regular
expression. -/
def email_char (c : Char) : Bool :=
  is_ascii_alpha c || is_ascii_digit c || c == '_' || c == '-' || c == '.'

/-- named! cabrillo_email: re_match on the anchored regular expression
(local part)@(domain part).(two-to-five letters); true exactly when the whole
input matches.  The local part ends at the first at-sign (the class excludes
it) and the top-level-domain part starts at the last dot (the class of the
top-level domain excludes dots). -/
def cabrillo_email (s : List Char) : Bool :=
  let loc := s.takeWhile (fun c => !(c == '@'))
  match s.drop loc.length with
  | '@' :: rest =>
    (!loc.isEmpty) && loc.all email_char &&
    (let revRest := rest.reverse
     let tldRev := revRest.takeWhile (fun c => !(c == '.'))
     match revRest.drop tldRev.length with
     | '.' :: domRev =>
       (!domRev.isEmpty) && domRev.all email_char && tldRev.all is_ascii_alpha &&
       decide (2 ≤ tldRev.length) && decide (tldRev.length ≤ 5)
     | _ => false)
  | _ => false

/-- The character class [A-Ra-r] of the grid-locator regular expression. -/
def grid_letter (c : Char) : Bool :=
  (65 ≤ c.toNat && c.toNat ≤ 82) || (97 ≤ c.toNat && c.toNat ≤ 114)

/-- Consume exactly n characters, each satisfying p: a regex character class
with a fixed repetition count. -/
def class_n (p : Char → Bool) : Nat → List Char → Option (List Char)
  | 0, i => some i
  | _ + 1, [] => none
  | n + 1, c :: r => if p c then class_n p n r else none

/-- named! cabrillo_grid_locator: re_match on the anchored regular expression
([A-Ra-r]{2})([0-9]{2})([A-Ra-r]{2})? — two grid letters, two digits, then
either the end of the input or two more grid letters and the end. -/
def cabrillo_grid_locator (s : List Char) : Bool :=
  match class_n grid_letter 2 s with
  | none => false
  | some r1 =>
    match class_n is_ascii_digit 2 r1 with
    | none => false
    | some r2 =>
      r2.isEmpty ||
      (match class_n grid_letter 2 r2 with
       | some r3 => r3.isEmpty
       | none => false)

/-- Length of the callsign regular-expression match starting exactly at the
head of the input, if any: optional at-sign, three to eight alphanumerics
(greedy, leftmost-first), then an optional slash followed by one to eight
alphanumerics (greedy). -/
def callsign_match_at (l : List Char) : Option Nat :=
  let core : List Char → Nat → Option Nat := fun l2 pre =>
    let bodyLen := min 8 (l2.takeWhile is_ascii_alphanumeric).length
    if 3 ≤ bodyLen then
      let afterBody := l2.drop bodyLen
      let sufLen := match afterBody with
        | '/' :: rest2 =>
          let s2 := min 8 (rest2.takeWhile is_ascii_alphanumeric).length
          if 1 ≤ s2 then 1 + s2 else 0
        | _ => 0
      some (pre + bodyLen + sufLen)
    else none
  match l with
  | '@' :: rest =>
    (match core rest 1 with
     | some n => some n
     | none => core l 0)
  | _ => core l 0

/-- nom re_find: scan for the leftmost position where the regular expression
matches, consume the input through the end of that match, and return the
matched text (any text before the match is silently skipped). -/
def re_find (matchAt : List Char → Option Nat) : List Char → Option (List Char × List Char)
  | [] => (matchAt []).map (fun n => (([] : List Char).take n, ([] : List Char).drop n))
  | c :: t =>
    match matchAt (c :: t) with
    | some n => some ((c :: t).take n, (c :: t).drop n)
    | none => re_find matchAt t

/-- named! cabrillo_callsign: re_find on the callsign regular expression. -/
def cabrillo_callsign (i : List Char) : Option (List Char × List Char) :=
  re_find callsign_match_at i

/-- The datetime regular expression matches exactly at the head of the input
(15 characters: four digits, dash, two digits, dash, two digits, space, four
digits). -/
def datetime_match_at (l : List Char) : Option Nat :=
  match l.take 15 with
  | [y1, y2, y3, y4, s1, m1, m2, s2, d1, d2, s3, h1, h2, n1, n2] =>
    if ([y1, y2, y3, y4, m1, m2, d1, d2, h1, h2, n1, n2].all is_ascii_digit &&
        s1 == '-' && s2 == '-' && s3 == ' ') then some 15 else none
  | _ => none

/-- named! cabrillo_datetime: re_find on the datetime regular expression. -/
def cabrillo_datetime (i : List Char) : Option (List Char × List Char) :=
  re_find datetime_match_at i

/-- named! cabrillo_mode: alt of the five literal mode tokens, each a prefix
match. -/
def cabrillo_mode (i : List Char) : Option (List Char × List Char) :=
  (tag_p ("CW".data) i).orElse (fun _ =>
  (tag_p ("PH".data) i).orElse (fun _ =>
  (tag_p ("FM".data) i).orElse (fun _ =>
  (tag_p ("RY".data) i).orElse (fun _ =>
  tag_p ("DG".data) i))))

/-- named! cabrillo_offtime: two datetimes separated by a single space. -/
def cabrillo_offtime (i : List Char) : Option ((List Char × List Char) × List Char) := do
  let (d1, r1) ← cabrillo_datetime i
  let (_, r2) ← char_p ' ' r1
  let (d2, r3) ← cabrillo_datetime r2
  pure ((d1, d2), r3)

/-- named! cabrillo_qso_format1: sep!(multispace0, tuple!(...)) with nine
fields; the multispace0 separator runs before each field. -/
def cabrillo_qso_format1 (is_alphabetic : Char → Bool) (i : List Char) :
    Option ((List Char × List Char × List Char × List Char × List Char ×
             List Char × List Char × List Char × List Char) × List Char) :=
  match multispace0 i with
  | none => none
  | some (_, i1) =>
  match digit1 i1 with
  | none => none
  | some (t1, i2) =>
  match multispace0 i2 with
  | none => none
  | some (_, i3) =>
  match cabrillo_mode i3 with
  | none => none
  | some (t2, i4) =>
  match multispace0 i4 with
  | none => none
  | some (_, i5) =>
  match cabrillo_datetime i5 with
  | none => none
  | some (t3, i6) =>
  match multispace0 i6 with
  | none => none
  | some (_, i7) =>
  match cabrillo_callsign i7 with
  | none => none
  | some (t4, i8) =>
  match multispace0 i8 with
  | none => none
  | some (_, i9) =>
  match alphanumeric1 is_alphabetic i9 with
  | none => none
  | some (t5, i10) =>
  match multispace0 i10 with
  | none => none
  | some (_, i11) =>
  match alphanumeric1 is_alphabetic i11 with
  | none => none
  | some (t6, i12) =>
  match multispace0 i12 with
  | none => none
  | some (_, i13) =>
  match cabrillo_callsign i13 with
  | none => none
  | some (t7, i14) =>
  match multispace0 i14 with
  | none => none
  | some (_, i15) =>
  match alphanumeric1 is_alphabetic i15 with
  | none => none
  | some (t8, i16) =>
  match multispace0 i16 with
  | none => none
  | some (_, i17) =>
  match alphanumeric1 is_alphabetic i17 with
  | none => none
  | some (t9, i18) => some ((t1, t2, t3, t4, t5, t6, t7, t8, t9), i18)

/-- named! cabrillo_qso_format2: sep!(multispace0, tuple!(...)) with seven
fields. -/
def cabrillo_qso_format2 (is_alphabetic : Char → Bool) (i : List Char) :
    Option ((List Char × List Char × List Char × List Char × List Char ×
             List Char × List Char) × List Char) :=
  match multispace0 i with
  | none => none
  | some (_, i1) =>
  match digit1 i1 with
  | none => none
  | some (t1, i2) =>
  match multispace0 i2 with
  | none => none
  | some (_, i3) =>
  match cabrillo_mode i3 with
  | none => none
  | some (t2, i4) =>
  match multispace0 i4 with
  | none => none
  | some (_, i5) =>
  match cabrillo_datetime i5 with
  | none => none
  | some (t3, i6) =>
  match multispace0 i6 with
  | none => none
  | some (_, i7) =>
  match cabrillo_callsign i7 with
  | none => none
  | some (t4, i8) =>
  match multispace0 i8 with
  | none => none
  | some (_, i9) =>
  match alphanumeric1 is_alphabetic i9 with
  | none => none
  | some (t5, i10) =>
  match multispace0 i10 with
  | none => none
  | some (_, i11) =>
  match cabrillo_callsign i11 with
  | none => none
  | some (t6, i12) =>
  match multispace0 i12 with
  | none => none
  | some (_, i13) =>
  match alphanumeric1 is_alphabetic i13 with
  | none => none
  | some (t7, i14) => some ((t1, t2, t3, t4, t5, t6, t7), i14)

/-- pub struct Qso. -/
structure Qso where
  frequency : Frequency
  mode : Mode
  datetime : DateTime
  call_sent : List Char
  rst_sent : Option SignalReport
  exch_sent : List Char
  call_recvd : List Char
  rst_recvd : Option SignalReport
  exch_recvd : List Char
  transmitter_id : Bool
  deriving DecidableEq

/-- pub struct Offtime (the end field is renamed end_ because end is a
reserved word). -/
structure Offtime where
  begin : DateTime
  end_ : DateTime
  deriving DecidableEq

/-- pub struct CabrilloLog: the accumulator and final output.  The
other_tags HashMap is modelled as an association list with unique keys. -/
structure CabrilloLog where
  version : Float
  callsign : Option (List Char)
  contest : Option (List Char)
  category_assisted : Option Bool
  category_band : Option Band
  category_mode : Option Mode
  category_operator : Option OperatorCategory
  category_power : Option PowerCategory
  category_station : Option StationCategory
  category_time : Option TimeCategory
  category_transmitter : Option TransmitterCategory
  category_overlay : Option OverlayCategory
  certificate : Option Bool
  claimed_score : Option Nat
  club : Option (List Char)
  created_by : Option (List Char)
  email : Option (List Char)
  grid_locator : Option (List Char)
  location : Option (List Char)
  name : Option (List Char)
  address : Option (List Char)
  operators : List (List Char)
  offtimes : List Offtime
  soapbox : Option (List Char)
  other_tags : List (List Char × List Char)
  entries : List Qso
  ignored_entries : List Qso
  debug : Bool

/-- CabrilloLog::new. -/
def CabrilloLog.new : CabrilloLog where
  version := 3.0
  callsign := none
  contest := none
  category_assisted := none
  category_band := none
  category_mode := none
  category_operator := none
  category_power := none
  category_station := none
  category_time := none
  category_transmitter := none
  category_overlay := none
  certificate := none
  claimed_score := none
  club := none
  created_by := none
  email := none
  grid_locator := none
  location := none
  name := none
  address := none
  operators := []
  offtimes := []
  soapbox := none
  other_tags := []
  entries := []
  ignored_entries := []
  debug := false

/-- CabrilloLog::parse_qso_format1 (the line number and tag arguments only
feed error messages and are omitted). -/
def CabrilloLog.parse_qso_format1 (is_alphabetic : Char → Bool)
    (value : List Char) : Option Qso :=
  match cabrillo_qso_format1 is_alphabetic value with
  | none => none
  | some ((t1, t2, t3, t4, t5, t6, t7, t8, t9), _) =>
  match parse_u32 t1 with
  | none => none
  | some freq =>
  match Mode.from_str t2 with
  | none => none
  | some mode =>
  match parse_datetime t3 with
  | none => none
  | some ts =>
  some {
    frequency := Frequency.Khz freq
    mode := mode
    datetime := ts
    call_sent := t4
    rst_sent := SignalReport.from_str t5
    exch_sent := t5 ++ ' ' :: t6
    call_recvd := t7
    rst_recvd := SignalReport.from_str t8
    exch_recvd := t8 ++ ' ' :: t9
    transmitter_id := false }

/-- CabrilloLog::parse_qso_format2. -/
def CabrilloLog.parse_qso_format2 (is_alphabetic : Char → Bool)
    (value : List Char) : Option Qso :=
  match cabrillo_qso_format2 is_alphabetic value with
  | none => none
  | some ((t1, t2, t3, t4, t5, t6, t7), _) =>
  match parse_u32 t1 with
  | none => none
  | some freq =>
  match Mode.from_str t2 with
  | none => none
  | some mode =>
  match parse_datetime t3 with
  | none => none
  | some ts =>
  some {
    frequency := Frequency.Khz freq
    mode := mode
    datetime := ts
    call_sent := t4
    rst_sent := none
    exch_sent := t5
    call_recvd := t6
    rst_recvd := none
    exch_recvd := t7
    transmitter_id := false }

/-- HashMap::insert for the unknown-tag map: replace the value under an
existing key, otherwise add the pair. -/
def insert_tag (m : List (List Char × List Char)) (k v : List Char) :
    List (List Char × List Char) :=
  if m.any (fun p => p.1 == k) then
    m.map (fun p => if p.1 == k then (k, v) else p)
  else m ++ [(k, v)]

/-- CabrilloLog::parse_tag: trim the raw value, dispatch on the tag name and
update the accumulator; none models the error return. -/
def CabrilloLog.parse_tag (is_alphabetic : Char → Bool) (log : CabrilloLog)
    (tag value0 : List Char) : Option CabrilloLog :=
  let value := rust_trim value0
  if tag = ("START-OF-LOG".data) then
    (parse_f32 value).map (fun v => { log with version := v })
  else if tag = ("CALLSIGN".data) then some { log with callsign := some value }
  else if tag = ("CONTEST".data) then some { log with contest := some value }
  else if tag = ("CATEGORY-ASSISTED".data) then
    if value = ("ASSISTED".data) then some { log with category_assisted := some true }
    else if value = ("NON-ASSISTED".data) then some { log with category_assisted := some false }
    else none
  else if tag = ("CATEGORY-BAND".data) then
    (Band.from_str value).map (fun b => { log with category_band := some b })
  else if tag = ("CATEGORY-MODE".data) then
    (Mode.from_str value).map (fun m => { log with category_mode := some m })
  else if tag = ("CATEGORY-OPERATOR".data) then
    (OperatorCategory.from_str value).map (fun c => { log with category_operator := some c })
  else if tag = ("CATEGORY-POWER".data) then
    (PowerCategory.from_str value).map (fun c => { log with category_power := some c })
  else if tag = ("CATEGORY-STATION".data) then
    (StationCategory.from_str value).map (fun c => { log with category_station := some c })
  else if tag = ("CATEGORY-TIME".data) then
    (TimeCategory.from_str value).map (fun c => { log with category_time := some c })
  else if tag = ("CATEGORY-TRANSMITTER".data) then
    (TransmitterCategory.from_str value).map (fun c => { log with category_transmitter := some c })
  else if tag = ("CATEGORY-OVERLAY".data) then
    (OverlayCategory.from_str value).map (fun c => { log with category_overlay := some c })
  else if tag = ("CERTIFICATE".data) then
    if value = ("YES".data) then some { log with certificate := some true }
    else if value = ("NO".data) then some { log with certificate := some false }
    else none
  else if tag = ("CLAIMED-SCORE".data) then
    some { log with claimed_score := parse_u32 value }
  else if tag = ("CLUB".data) then some { log with club := some value }
  else if tag = ("CREATED-BY".data) then some { log with created_by := some value }
  else if tag = ("EMAIL".data) then
    if cabrillo_email value then some log else none
  else if tag = ("GRID-LOCATOR".data) then
    if cabrillo_grid_locator value then some log else none
  else if tag = ("LOCATION".data) then some { log with location := some value }
  else if tag = ("NAME".data) then some { log with name := some value }
  else if tag = ("ADDRESS".data) ∨ tag = ("ADDRESS-CITY".data) ∨
          tag = ("ADDRESS-STATE-PROVINCE".data) ∨ tag = ("ADDRESS-POSTALCODE".data) ∨
          tag = ("ADDRESS-COUNTRY".data) then
    some { log with address := some (match log.address with
      | some a => a ++ '\n' :: value
      | none => value) }
  else if tag = ("OPERATORS".data) then
    some { log with operators := log.operators ++
      ((value.splitOnP (fun c => c == ',' || c == ' ')).filter
        (fun call => decide (0 < call.length))).map rust_trim }
  else if tag = ("OFFTIME".data) then
    match cabrillo_offtime value with
    | none => none
    | some ((d1, d2), _) =>
      match parse_datetime d1, parse_datetime d2 with
      | some b, some e => some { log with offtimes := log.offtimes ++ [⟨b, e⟩] }
      | _, _ => none
  else if tag = ("SOAPBOX".data) then
    some { log with soapbox := some (match log.soapbox with
      | some a => a ++ '\n' :: value
      | none => value) }
  else if tag = ("QSO".data) ∨ tag = ("X-QSO".data) then
    match (CabrilloLog.parse_qso_format1 is_alphabetic value).orElse
        (fun _ => CabrilloLog.parse_qso_format2 is_alphabetic value) with
    | none => none
    | some qso =>
      if tag = ("QSO".data) then some { log with entries := log.entries ++ [qso] }
      else some { log with ignored_entries := log.ignored_entries ++ [qso] }
  else if tag = ("DEBUG".data) then some { log with debug := true }
  else if tag = ("END-OF-LOG".data) then some log
  else some { log with other_tags := insert_tag log.other_tags tag value }

/-- CabrilloLog::parse_line: skip empty lines, otherwise split the line with
the tag grammar (the unconsumed remainder is discarded) and dispatch. -/
def CabrilloLog.parse_line (is_alphabetic : Char → Bool) (log : CabrilloLog)
    (line : List Char) : Option CabrilloLog :=
  if line.length = 0 then some log
  else
    match cabrillo_tag line with
    | some ((t, v), _) => CabrilloLog.parse_tag is_alphabetic log t v
    | none => none

/-- CabrilloLog::from_buffer: split the buffer on newlines and fold
parse_line over the lines, starting from CabrilloLog::new. -/
def CabrilloLog.from_buffer (is_alphabetic : Char → Bool) (buf : List Char) :
    Option CabrilloLog :=
  (buf.splitOnP (fun c => c == '\n')).foldlM
    (CabrilloLog.parse_line is_alphabetic) CabrilloLog.new

/-- Specification-side mirror (from the amended claim wording) of the
grid-locator grammar: two letters A-R (either case) and two digits,
optionally followed by two more letters A-R (either case), full match. -/
def grid_locator_spec (s : List Char) : Bool :=
  match s with
  | [a, b, c, d] =>
    grid_letter a && grid_letter b && is_ascii_digit c && is_ascii_digit d
  | [a, b, c, d, e, f] =>
    grid_letter a && grid_letter b && is_ascii_digit c && is_ascii_digit d &&
    grid_letter e && grid_letter f
  | _ => false

/-- Specification-side mirror of the signal-report grammar: exactly two or
three ASCII digits, readability in 1-5, strength in 1-9, tone in 0-9 with
tone zero when absent. -/
def signal_report_spec (s : List Char) : Option SignalReport :=
  match s with
  | [c1, c2] =>
    if is_ascii_digit c1 ∧ is_ascii_digit c2 ∧
        1 ≤ c1.toNat - 48 ∧ c1.toNat - 48 ≤ 5 ∧ 1 ≤ c2.toNat - 48 ∧ c2.toNat - 48 ≤ 9 then
      some ⟨c1.toNat - 48, c2.toNat - 48, 0⟩
    else none
  | [c1, c2, c3] =>
    if is_ascii_digit c1 ∧ is_ascii_digit c2 ∧ is_ascii_digit c3 ∧
        1 ≤ c1.toNat - 48 ∧ c1.toNat - 48 ≤ 5 ∧ 1 ≤ c2.toNat - 48 ∧ c2.toNat - 48 ≤ 9 ∧
        c3.toNat - 48 ≤ 9 then
      some ⟨c1.toNat - 48, c2.toNat - 48, c3.toNat - 48⟩
    else none
  | _ => none

/-- Specification-side predicate: the kilohertz value lies inside one of the
fixed inclusive amateur-band ranges of the frequency-to-band mapping. -/
def in_some_band_range (n : Nat) : Bool :=
  (decide (1800 ≤ n) && decide (n ≤ 2000)) ||
  (decide (3500 ≤ n) && decide (n ≤ 4000)) ||
  (decide (7000 ≤ n) && decide (n ≤ 7300)) ||
  (decide (14000 ≤ n) && decide (n ≤ 14350)) ||
  (decide (21000 ≤ n) && decide (n ≤ 21450)) ||
  (decide (28000 ≤ n) && decide (n ≤ 29700)) ||
  (decide (50000 ≤ n) && decide (n ≤ 54000)) ||
  (decide (70000 ≤ n) && decide (n ≤ 70500)) ||
  (decide (144000 ≤ n) && decide (n ≤ 148000)) ||
  (decide (219000 ≤ n) && decide (n ≤ 225000)) ||
  (decide (420000 ≤ n) && decide (n ≤ 450000)) ||
  (decide (902000 ≤ n) && decide (n ≤ 928000)) ||
  (decide (1240000 ≤ n) && decide (n ≤ 1300000)) ||
  (decide (2390000 ≤ n) && decide (n ≤ 2450000)) ||
  (decide (3300000 ≤ n) && decide (n ≤ 3500000)) ||
  (decide (5650000 ≤ n) && decide (n ≤ 5925000)) ||
  (decide (10000000 ≤ n) && decide (n ≤ 10500000)) ||
  (decide (24000000 ≤ n) && decide (n ≤ 24250000)) ||
  (decide (47000000 ≤ n) && decide (n ≤ 47200000)) ||
  (decide (76000000 ≤ n) && decide (n ≤ 81000000)) ||
  (decide (122250000 ≤ n) && decide (n ≤ 123000000)) ||
  (decide (134000000 ≤ n) && decide (n ≤ 141000000)) ||
  (decide (241000000 ≤ n) && decide (n ≤ 250000000))

/-- The five tag names that funnel into the multi-line address
accumulation rule. -/
def address_tags : List (List Char) :=
  [("ADDRESS".data), ("ADDRESS-CITY".data), ("ADDRESS-STATE-PROVINCE".data),
   ("ADDRESS-POSTALCODE".data), ("ADDRESS-COUNTRY".data)]

/-- Specification-side multi-line accumulation: first occurrence sets the
field, later occurrences append after a single newline, never overwriting. -/
def multiline_append (old : Option (List Char)) (v : List Char) : Option (List Char) :=
  some (match old with
    | some a => a ++ '\n' :: v
    | none => v)

/-- C1: the claim says a successful EMAIL or GRID-LOCATOR line stores its
value into the log record, whose accessors then return it.  The code
validates both values but never assigns the fields: parsing succeeds and
returns the accumulator unchanged, so email and grid_locator remain none.
This theorem evaluates the model at the failing inputs. -/
theorem email_grid_locator_never_stored :
    ∀ is_alphabetic : Char → Bool,
    CabrilloLog.parse_tag is_alphabetic CabrilloLog.new ("EMAIL".data)
      ("name@test.com".data) = some CabrilloLog.new ∧
    CabrilloLog.parse_tag is_alphabetic CabrilloLog.new ("GRID-LOCATOR".data)
      ("FN20ib".data) = some CabrilloLog.new ∧
    CabrilloLog.new.email = none ∧ CabrilloLog.new.grid_locator = none :=
  fun _ => ⟨rfl, rfl, rfl, rfl⟩

/-- C2 counterexample: the claim states that "AR34id11" parses successfully
as a grid locator, but the grid-locator regular expression has no trailing
digit pair in its optional group, so the GRID-LOCATOR handler rejects it. -/
theorem grid_locator_claim_counterexample :
    cabrillo_grid_locator ("AR34id11".data) = false ∧
    ∀ is_alphabetic : Char → Bool,
      CabrilloLog.parse_tag is_alphabetic CabrilloLog.new ("GRID-LOCATOR".data)
        ("AR34id11".data) = none :=
  ⟨rfl, fun _ => rfl⟩

/-- C2 (amended): the grid-locator primitive accepts exactly two letters A-R
(case-insensitive) plus two digits, optionally followed by two more letters
A-R (case-insensitive) — with no digit pair after the optional letters — and
a full match is required; "FN20ib" and "ar34id" parse successfully while
"AR34id11", "Az99xx", "asdf" and "FN20id00xx" fail, and the GRID-LOCATOR
handler succeeds exactly when the trimmed value matches. -/
theorem grid_locator_amended :
    (∀ s : List Char, cabrillo_grid_locator s = grid_locator_spec s) ∧
    cabrillo_grid_locator ("FN20ib".data) = true ∧
    cabrillo_grid_locator ("ar34id".data) = true ∧
    cabrillo_grid_locator ("AR34id11".data) = false ∧
    cabrillo_grid_locator ("Az99xx".data) = false ∧
    cabrillo_grid_locator ("asdf".data) = false ∧
    cabrillo_grid_locator ("FN20id00xx".data) = false ∧
    (∀ (is_alphabetic : Char → Bool) (log : CabrilloLog) (v : List Char),
      cabrillo_grid_locator (rust_trim v) = true →
      CabrilloLog.parse_tag is_alphabetic log ("GRID-LOCATOR".data) v = some log) ∧
    (∀ (is_alphabetic : Char → Bool) (log : CabrilloLog) (v : List Char),
      cabrillo_grid_locator (rust_trim v) = false →
      CabrilloLog.parse_tag is_alphabetic log ("GRID-LOCATOR".data) v = none) := by
  refine ⟨?_, rfl, rfl, rfl, rfl, rfl, rfl, ?_, ?_⟩
  · intro s
    rcases s with _ | ⟨a, s⟩
    · rfl
    rcases s with _ | ⟨b, s⟩
    · cases hga : grid_letter a <;>
        simp [cabrillo_grid_locator, grid_locator_spec, class_n, hga]
    rcases s with _ | ⟨c, s⟩
    · cases hga : grid_letter a <;> cases hgb : grid_letter b <;>
        simp [cabrillo_grid_locator, grid_locator_spec, class_n, hga, hgb]
    rcases s with _ | ⟨d, s⟩
    · cases hga : grid_letter a <;> cases hgb : grid_letter b <;>
        cases hdc : is_ascii_digit c <;>
        simp [cabrillo_grid_locator, grid_locator_spec, class_n, hga, hgb, hdc]
    rcases s with _ | ⟨e, s⟩
    · cases hga : grid_letter a <;> cases hgb : grid_letter b <;>
        cases hdc : is_ascii_digit c <;> cases hdd : is_ascii_digit d <;>
        simp [cabrillo_grid_locator, grid_locator_spec, class_n, hga, hgb, hdc, hdd]
    rcases s with _ | ⟨f, s⟩
    · cases hga : grid_letter a <;> cases hgb : grid_letter b <;>
        cases hdc : is_ascii_digit c <;> cases hdd : is_ascii_digit d <;>
        cases hge : grid_letter e <;>
        simp [cabrillo_grid_locator, grid_locator_spec, class_n, hga, hgb, hdc, hdd, hge]
    rcases s with _ | ⟨g, s⟩
    · cases hga : grid_letter a <;> cases hgb : grid_letter b <;>
        cases hdc : is_ascii_digit c <;> cases hdd : is_ascii_digit d <;>
        cases hge : grid_letter e <;> cases hgf : grid_letter f <;>
        simp [cabrillo_grid_locator, grid_locator_spec, class_n, hga, hgb, hdc, hdd, hge, hgf]
    · cases hga : grid_letter a <;> cases hgb : grid_letter b <;>
        cases hdc : is_ascii_digit c <;> cases hdd : is_ascii_digit d <;>
        cases hge : grid_letter e <;> cases hgf : grid_letter f <;>
        simp [cabrillo_grid_locator, grid_locator_spec, class_n, hga, hgb, hdc, hdd, hge, hgf]
  · intro is_alphabetic log v h
    have e : CabrilloLog.parse_tag is_alphabetic log ("GRID-LOCATOR".data) v =
        (if cabrillo_grid_locator (rust_trim v) = true then some log else none) := rfl
    rw [e, if_pos h]
  · intro is_alphabetic log v h
    have e : CabrilloLog.parse_tag is_alphabetic log ("GRID-LOCATOR".data) v =
        (if cabrillo_grid_locator (rust_trim v) = true then some log else none) := rfl
    rw [e, if_neg]
    simp [h]

/-- C2 witness: the amended handler-level statements applied at concrete
inputs. -/
theorem grid_locator_amended_witness :
    CabrilloLog.parse_tag is_ascii_alpha CabrilloLog.new ("GRID-LOCATOR".data)
      ("ar34id".data) = some CabrilloLog.new ∧
    CabrilloLog.parse_tag is_ascii_alpha CabrilloLog.new ("GRID-LOCATOR".data)
      ("asdf".data) = none :=
  ⟨grid_locator_amended.2.2.2.2.2.2.2.1 is_ascii_alpha CabrilloLog.new
      ("ar34id".data) (by decide),
   grid_locator_amended.2.2.2.2.2.2.2.2 is_ascii_alpha CabrilloLog.new
      ("asdf".data) (by decide)⟩

/-- A tag_p parse succeeds exactly when the literal is a prefix of the
input. -/
theorem tag_p_isSome_eq (p i : List Char) : (tag_p p i).isSome = p.isPrefixOf i := by
  unfold tag_p
  by_cases h : p.isPrefixOf i = true
  · rw [if_pos h, h]; rfl
  · rw [if_neg h]
    have h2 : p.isPrefixOf i = false := by
      cases hb : p.isPrefixOf i
      · rfl
      · exact absurd hb h
    rw [h2]; rfl

/-- orElse on Option succeeds exactly when one of the alternatives does. -/
theorem orElse_isSome_eq (a : Option (List Char × List Char))
    (f : Unit → Option (List Char × List Char)) :
    (a.orElse f).isSome = (a.isSome || (f ()).isSome) := by
  cases a <;> rfl

/-- C3 counterexample: the claim states that in an otherwise well-formed QSO
line every token of the set CW, FM, PH, SSB, RY, RTTY, DG, DIGI, MIXED is
accepted in the mode field; but the same line that is accepted with CW is
rejected with SSB (and with DG), so the claim fails. -/
theorem qso_mode_claim_counterexample :
    (CabrilloLog.parse_tag is_ascii_alpha CabrilloLog.new ("QSO".data)
      ("14250 CW 2021-06-12 1345 W1AW 599 001 K3AH 599 001".data)).isSome = true ∧
    CabrilloLog.parse_tag is_ascii_alpha CabrilloLog.new ("QSO".data)
      ("14250 SSB 2021-06-12 1345 W1AW 599 001 K3AH 599 001".data) = none ∧
    CabrilloLog.parse_tag is_ascii_alpha CabrilloLog.new ("QSO".data)
      ("14250 DG 2021-06-12 1345 W1AW 599 001 K3AH 599 001".data) = none :=
  ⟨rfl, rfl, rfl⟩

/-- C3 (amended): the nom mode primitive accepts exactly the five literal
prefixes CW, PH, FM, RY, DG; the matched token is then re-parsed with
Mode::from_str, which has no DG entry, so in QSO and X-QSO lines only
CW, PH, FM and RY are effectively accepted (mapped to Cw, Phone, Fm, Rtty),
while SSB, RTTY, DIGI and MIXED fail the grammar stage and DG fails the
re-parse stage. -/
theorem qso_mode_amended :
    (∀ s : List Char, (cabrillo_mode s).isSome =
      (("CW".data).isPrefixOf s || (("PH".data).isPrefixOf s ||
       (("FM".data).isPrefixOf s || (("RY".data).isPrefixOf s ||
        ("DG".data).isPrefixOf s))))) ∧
    Mode.from_str ("DG".data) = none ∧
    (CabrilloLog.parse_tag is_ascii_alpha CabrilloLog.new ("QSO".data)
      ("14250 CW 2021-06-12 1345 W1AW 599 001 K3AH 599 001".data)).map
        (fun l => l.entries.map Qso.mode) = some [Mode.Cw] ∧
    (CabrilloLog.parse_tag is_ascii_alpha CabrilloLog.new ("QSO".data)
      ("14250 PH 2021-06-12 1345 W1AW 599 001 K3AH 599 001".data)).map
        (fun l => l.entries.map Qso.mode) = some [Mode.Phone] ∧
    (CabrilloLog.parse_tag is_ascii_alpha CabrilloLog.new ("QSO".data)
      ("14250 FM 2021-06-12 1345 W1AW 599 001 K3AH 599 001".data)).map
        (fun l => l.entries.map Qso.mode) = some [Mode.Fm] ∧
    (CabrilloLog.parse_tag is_ascii_alpha CabrilloLog.new ("QSO".data)
      ("14250 RY 2021-06-12 1345 W1AW 599 001 K3AH 599 001".data)).map
        (fun l => l.entries.map Qso.mode) = some [Mode.Rtty] ∧
    CabrilloLog.parse_tag is_ascii_alpha CabrilloLog.new ("QSO".data)
      ("14250 DG 2021-06-12 1345 W1AW 599 001 K3AH 599 001".data) = none ∧
    CabrilloLog.parse_tag is_ascii_alpha CabrilloLog.new ("QSO".data)
      ("14250 SSB 2021-06-12 1345 W1AW 599 001 K3AH 599 001".data) = none ∧
    CabrilloLog.parse_tag is_ascii_alpha CabrilloLog.new ("QSO".data)
      ("14250 RTTY 2021-06-12 1345 W1AW 599 001 K3AH 599 001".data) = none ∧
    CabrilloLog.parse_tag is_ascii_alpha CabrilloLog.new ("QSO".data)
      ("14250 DIGI 2021-06-12 1345 W1AW 599 001 K3AH 599 001".data) = none ∧
    CabrilloLog.parse_tag is_ascii_alpha CabrilloLog.new ("QSO".data)
      ("14250 MIXED 2021-06-12 1345 W1AW 599 001 K3AH 599 001".data) = none := by
  refine ⟨?_, rfl, rfl, rfl, rfl, rfl, rfl, rfl, rfl, rfl, rfl⟩
  intro s
  unfold cabrillo_mode
  rw [orElse_isSome_eq, orElse_isSome_eq, orElse_isSome_eq, orElse_isSome_eq,
      tag_p_isSome_eq, tag_p_isSome_eq, tag_p_isSome_eq, tag_p_isSome_eq, tag_p_isSome_eq]

/-- C5: the CLAIMED-SCORE handler never aborts the parse; it always returns
success, leaving claimed_score equal to the optional result of the unsigned
integer parse of the trimmed value — none when parsing fails, the integer
when it succeeds. -/
theorem claimed_score_lenient :
    ∀ (is_alphabetic : Char → Bool) (log : CabrilloLog) (value : List Char),
      ∃ log2, CabrilloLog.parse_tag is_alphabetic log ("CLAIMED-SCORE".data) value =
          some log2 ∧
        log2.claimed_score = parse_u32 (rust_trim value) :=
  fun _ log value => ⟨_, rfl, rfl⟩

/-- C10: SignalReport parsing is total — for every input it yields an Ok or
an Err outcome and never reaches the out-of-bounds index case, because the
direct indexing of the first two characters is dominated by the guard
restricting the character count to 2 or 3. -/
theorem signal_report_total_safe :
    ∀ s : List Char, ∃ r, SignalReport.from_str_checked s = some r := by
  intro s
  rcases s with _ | ⟨c0, s⟩
  · exact ⟨none, rfl⟩
  rcases s with _ | ⟨c1, s⟩
  · exact ⟨none, rfl⟩
  by_cases hlen : ((c0 :: c1 :: s).length < 2 ∨ (c0 :: c1 :: s).length > 3)
  · exact ⟨none, by unfold SignalReport.from_str_checked; rw [if_pos hlen]⟩
  · unfold SignalReport.from_str_checked
    rw [if_neg hlen]
    simp only [List.get?]
    rcases hd0 : digit_val c0 with _ | r0
    · exact ⟨none, rfl⟩
    rcases hd1 : digit_val c1 with _ | r1
    · exact ⟨none, rfl⟩
    rcases s with _ | ⟨c2, s⟩
    · exact ⟨_, rfl⟩
    simp only [List.get?]
    rcases hd2 : digit_val c2 with _ | r2
    · exact ⟨none, rfl⟩
    · exact ⟨_, rfl⟩

/-- A none result of the single-digit parse means the character is not an
ASCII digit. -/
theorem digit_val_none_iff (c : Char) : digit_val c = none ↔ is_ascii_digit c = false := by
  unfold digit_val
  by_cases h : is_ascii_digit c = true
  · simp [h]
  · simp [h]

/-- A some result of the single-digit parse determines the digit value. -/
theorem digit_val_some (c : Char) (r : Nat) (h : digit_val c = some r) :
    is_ascii_digit c = true ∧ r = c.toNat - 48 := by
  unfold digit_val at h
  by_cases hc : is_ascii_digit c = true
  · rw [if_pos hc] at h
    exact ⟨hc, (Option.some.inj h).symm⟩
  · rw [if_neg hc] at h
    exact absurd h (by simp)

/-- C7: the signal-report primitive parses exactly the strings of two or
three ASCII digits with readability in 1-5, strength in 1-9 and tone in 0-9:
a valid two-digit string yields (R, S, 0), a valid three-digit string yields
(R, S, T), and every other string fails — stated as pointwise equality with
the specification-side function. -/
theorem signal_report_from_str_correct :
    ∀ s : List Char, SignalReport.from_str s = signal_report_spec s := by
  intro s
  rcases s with _ | ⟨c1, s⟩
  · rfl
  rcases s with _ | ⟨c2, s⟩
  · rfl
  rcases s with _ | ⟨c3, s⟩
  · unfold SignalReport.from_str SignalReport.from_str_checked signal_report_spec
    rw [if_neg (by simp)]
    simp only [List.get?]
    rcases hd1 : digit_val c1 with _ | r1
    · have h1 := (digit_val_none_iff c1).mp hd1
      simp [h1]
    obtain ⟨h1, hr1⟩ := digit_val_some c1 r1 hd1
    rcases hd2 : digit_val c2 with _ | r2
    · have h2 := (digit_val_none_iff c2).mp hd2
      simp [h2]
    obtain ⟨h2, hr2⟩ := digit_val_some c2 r2 hd2
    subst hr1
    subst hr2
    simp only [Option.bind, id, h1, h2, true_and]
    split_ifs with hA hB hC
    · rfl
    · exact absurd ⟨hA.1, hA.2.1, hA.2.2.1, hA.2.2.2.1⟩ hB
    · exact absurd ⟨hC.1, hC.2.1, hC.2.2.1, hC.2.2.2, by omega⟩ hA
    · rfl
  rcases s with _ | ⟨c4, s⟩
  · unfold SignalReport.from_str SignalReport.from_str_checked signal_report_spec
    rw [if_neg (by simp)]
    simp only [List.get?]
    rcases hd1 : digit_val c1 with _ | r1
    · have h1 := (digit_val_none_iff c1).mp hd1
      simp [h1]
    obtain ⟨h1, hr1⟩ := digit_val_some c1 r1 hd1
    rcases hd2 : digit_val c2 with _ | r2
    · have h2 := (digit_val_none_iff c2).mp hd2
      simp [h2]
    obtain ⟨h2, hr2⟩ := digit_val_some c2 r2 hd2
    rcases hd3 : digit_val c3 with _ | r3
    · have h3 := (digit_val_none_iff c3).mp hd3
      simp [h3]
    obtain ⟨h3, hr3⟩ := digit_val_some c3 r3 hd3
    subst hr1
    subst hr2
    subst hr3
    simp only [Option.bind, id, h1, h2, h3, true_and]
    split_ifs with hA hB hC
    · rfl
    · exact absurd ⟨hA.1, hA.2.1, hA.2.2.1, hA.2.2.2.1, hA.2.2.2.2⟩ hB
    · exact absurd ⟨hC.1, hC.2.1, hC.2.2.1, hC.2.2.2.1, hC.2.2.2.2⟩ hA
    · rfl
  · unfold SignalReport.from_str SignalReport.from_str_checked signal_report_spec
    rw [if_pos (by simp)]
    rfl


/-- A value outside an inclusive range fails the range test. -/
theorem not_range {n lo hi : Nat} (h : n < lo ∨ hi < n) : ¬(lo ≤ n ∧ n ≤ hi) := by
  omega

/-- C8: the frequency-to-band mapping is total on its defined inclusive
ranges and fails elsewhere: every kHz value inside a range maps to exactly
that band, every value of at least 300000000 maps to the light band, every
value below 300000000 and outside all ranges fails, and the light frequency
always maps to the light band. -/
theorem band_from_frequency_ranges :
    (∀ n : Nat, 1800 ≤ n → n ≤ 2000 → Band.try_from (Frequency.Khz n) = some Band.Band160M) ∧
    (∀ n : Nat, 3500 ≤ n → n ≤ 4000 → Band.try_from (Frequency.Khz n) = some Band.Band80M) ∧
    (∀ n : Nat, 7000 ≤ n → n ≤ 7300 → Band.try_from (Frequency.Khz n) = some Band.Band40M) ∧
    (∀ n : Nat, 14000 ≤ n → n ≤ 14350 → Band.try_from (Frequency.Khz n) = some Band.Band20M) ∧
    (∀ n : Nat, 21000 ≤ n → n ≤ 21450 → Band.try_from (Frequency.Khz n) = some Band.Band15M) ∧
    (∀ n : Nat, 28000 ≤ n → n ≤ 29700 → Band.try_from (Frequency.Khz n) = some Band.Band10M) ∧
    (∀ n : Nat, 50000 ≤ n → n ≤ 54000 → Band.try_from (Frequency.Khz n) = some Band.Band6M) ∧
    (∀ n : Nat, 70000 ≤ n → n ≤ 70500 → Band.try_from (Frequency.Khz n) = some Band.Band4M) ∧
    (∀ n : Nat, 144000 ≤ n → n ≤ 148000 → Band.try_from (Frequency.Khz n) = some Band.Band2M) ∧
    (∀ n : Nat, 219000 ≤ n → n ≤ 225000 → Band.try_from (Frequency.Khz n) = some Band.Band222) ∧
    (∀ n : Nat, 420000 ≤ n → n ≤ 450000 → Band.try_from (Frequency.Khz n) = some Band.Band432) ∧
    (∀ n : Nat, 902000 ≤ n → n ≤ 928000 → Band.try_from (Frequency.Khz n) = some Band.Band902) ∧
    (∀ n : Nat, 1240000 ≤ n → n ≤ 1300000 → Band.try_from (Frequency.Khz n) = some Band.Band1_2G) ∧
    (∀ n : Nat, 2390000 ≤ n → n ≤ 2450000 → Band.try_from (Frequency.Khz n) = some Band.Band2_3G) ∧
    (∀ n : Nat, 3300000 ≤ n → n ≤ 3500000 → Band.try_from (Frequency.Khz n) = some Band.Band3_4G) ∧
    (∀ n : Nat, 5650000 ≤ n → n ≤ 5925000 → Band.try_from (Frequency.Khz n) = some Band.Band5_7G) ∧
    (∀ n : Nat, 10000000 ≤ n → n ≤ 10500000 → Band.try_from (Frequency.Khz n) = some Band.Band10G) ∧
    (∀ n : Nat, 24000000 ≤ n → n ≤ 24250000 → Band.try_from (Frequency.Khz n) = some Band.Band24G) ∧
    (∀ n : Nat, 47000000 ≤ n → n ≤ 47200000 → Band.try_from (Frequency.Khz n) = some Band.Band47G) ∧
    (∀ n : Nat, 76000000 ≤ n → n ≤ 81000000 → Band.try_from (Frequency.Khz n) = some Band.Band75G) ∧
    (∀ n : Nat, 122250000 ≤ n → n ≤ 123000000 → Band.try_from (Frequency.Khz n) = some Band.Band123G) ∧
    (∀ n : Nat, 134000000 ≤ n → n ≤ 141000000 → Band.try_from (Frequency.Khz n) = some Band.Band134G) ∧
    (∀ n : Nat, 241000000 ≤ n → n ≤ 250000000 → Band.try_from (Frequency.Khz n) = some Band.Band241G) ∧
    (∀ n : Nat, 300000000 ≤ n → Band.try_from (Frequency.Khz n) = some Band.Light) ∧
    (∀ n : Nat, n < 300000000 → in_some_band_range n = false →
      Band.try_from (Frequency.Khz n) = none) ∧
    Band.try_from Frequency.Light = some Band.Light := by
  refine ⟨?_, ?_, ?_, ?_, ?_, ?_, ?_, ?_, ?_, ?_, ?_, ?_, ?_, ?_, ?_, ?_, ?_, ?_, ?_, ?_, ?_, ?_, ?_, ?_, ?_, rfl⟩
  · intro n h1 h2
    simp only [Band.try_from]
    rw [if_pos ⟨h1, h2⟩]
  · intro n h1 h2
    simp only [Band.try_from]
    rw [if_neg (not_range (by omega)),
      if_pos ⟨h1, h2⟩]
  · intro n h1 h2
    simp only [Band.try_from]
    rw [if_neg (not_range (by omega)),
      if_neg (not_range (by omega)),
      if_pos ⟨h1, h2⟩]
  · intro n h1 h2
    simp only [Band.try_from]
    rw [if_neg (not_range (by omega)),
      if_neg (not_range (by omega)),
      if_neg (not_range (by omega)),
      if_pos ⟨h1, h2⟩]
  · intro n h1 h2
    simp only [Band.try_from]
    rw [if_neg (not_range (by omega)),
      if_neg (not_range (by omega)),
      if_neg (not_range (by omega)),
      if_neg (not_range (by omega)),
      if_pos ⟨h1, h2⟩]
  · intro n h1 h2
    simp only [Band.try_from]
    rw [if_neg (not_range (by omega)),
      if_neg (not_range (by omega)),
      if_neg (not_range (by omega)),
      if_neg (not_range (by omega)),
      if_neg (not_range (by omega)),
      if_pos ⟨h1, h2⟩]
  · intro n h1 h2
    simp only [Band.try_from]
    rw [if_neg (not_range (by omega)),
      if_neg (not_range (by omega)),
      if_neg (not_range (by omega)),
      if_neg (not_range (by omega)),
      if_neg (not_range (by omega)),
      if_neg (not_range (by omega)),
      if_pos ⟨h1, h2⟩]
  · intro n h1 h2
    simp only [Band.try_from]
    rw [if_neg (not_range (by omega)),
      if_neg (not_range (by omega)),
      if_neg (not_range (by omega)),
      if_neg (not_range (by omega)),
      if_neg (not_range (by omega)),
      if_neg (not_range (by omega)),
      if_neg (not_range (by omega)),
      if_pos ⟨h1, h2⟩]
  · intro n h1 h2
    simp only [Band.try_from]
    rw [if_neg (not_range (by omega)),
      if_neg (not_range (by omega)),
      if_neg (not_range (by omega)),
      if_neg (not_range (by omega)),
      if_neg (not_range (by omega)),
      if_neg (not_range (by omega)),
      if_neg (not_range (by omega)),
      if_neg (not_range (by omega)),
      if_pos ⟨h1, h2⟩]
  · intro n h1 h2
    simp only [Band.try_from]
    rw [if_neg (not_range (by omega)),
      if_neg (not_range (by omega)),
      if_neg (not_range (by omega)),
      if_neg (not_range (by omega)),
      if_neg (not_range (by omega)),
      if_neg (not_range (by omega)),
      if_neg (not_range (by omega)),
      if_neg (not_range (by omega)),
      if_neg (not_range (by omega)),
      if_pos ⟨h1, h2⟩]
  · intro n h1 h2
    simp only [Band.try_from]
    rw [if_neg (not_range (by omega)),
      if_neg (not_range (by omega)),
      if_neg (not_range (by omega)),
      if_neg (not_range (by omega)),
      if_neg (not_range (by omega)),
      if_neg (not_range (by omega)),
      if_neg (not_range (by omega)),
      if_neg (not_range (by omega)),
      if_neg (not_range (by omega)),
      if_neg (not_range (by omega)),
      if_pos ⟨h1, h2⟩]
  · intro n h1 h2
    simp only [Band.try_from]
    rw [if_neg (not_range (by omega)),
      if_neg (not_range (by omega)),
      if_neg (not_range (by omega)),
      if_neg (not_range (by omega)),
      if_neg (not_range (by omega)),
      if_neg (not_range (by omega)),
      if_neg (not_range (by omega)),
      if_neg (not_range (by omega)),
      if_neg (not_range (by omega)),
      if_neg (not_range (by omega)),
      if_neg (not_range (by omega)),
      if_pos ⟨h1, h2⟩]
  · intro n h1 h2
    simp only [Band.try_from]
    rw [if_neg (not_range (by omega)),
      if_neg (not_range (by omega)),
      if_neg (not_range (by omega)),
      if_neg (not_range (by omega)),
      if_neg (not_range (by omega)),
      if_neg (not_range (by omega)),
      if_neg (not_range (by omega)),
      if_neg (not_range (by omega)),
      if_neg (not_range (by omega)),
      if_neg (not_range (by omega)),
      if_neg (not_range (by omega)),
      if_neg (not_range (by omega)),
      if_pos ⟨h1, h2⟩]
  · intro n h1 h2
    simp only [Band.try_from]
    rw [if_neg (not_range (by omega)),
      if_neg (not_range (by omega)),
      if_neg (not_range (by omega)),
      if_neg (not_range (by omega)),
      if_neg (not_range (by omega)),
      if_neg (not_range (by omega)),
      if_neg (not_range (by omega)),
      if_neg (not_range (by omega)),
      if_neg (not_range (by omega)),
      if_neg (not_range (by omega)),
      if_neg (not_range (by omega)),
      if_neg (not_range (by omega)),
      if_neg (not_range (by omega)),
      if_pos ⟨h1, h2⟩]
  · intro n h1 h2
    simp only [Band.try_from]
    rw [if_neg (not_range (by omega)),
      if_neg (not_range (by omega)),
      if_neg (not_range (by omega)),
      if_neg (not_range (by omega)),
      if_neg (not_range (by omega)),
      if_neg (not_range (by omega)),
      if_neg (not_range (by omega)),
      if_neg (not_range (by omega)),
      if_neg (not_range (by omega)),
      if_neg (not_range (by omega)),
      if_neg (not_range (by omega)),
      if_neg (not_range (by omega)),
      if_neg (not_range (by omega)),
      if_neg (not_range (by omega)),
      if_pos ⟨h1, h2⟩]
  · intro n h1 h2
    simp only [Band.try_from]
    rw [if_neg (not_range (by omega)),
      if_neg (not_range (by omega)),
      if_neg (not_range (by omega)),
      if_neg (not_range (by omega)),
      if_neg (not_range (by omega)),
      if_neg (not_range (by omega)),
      if_neg (not_range (by omega)),
      if_neg (not_range (by omega)),
      if_neg (not_range (by omega)),
      if_neg (not_range (by omega)),
      if_neg (not_range (by omega)),
      if_neg (not_range (by omega)),
      if_neg (not_range (by omega)),
      if_neg (not_range (by omega)),
      if_neg (not_range (by omega)),
      if_pos ⟨h1, h2⟩]
  · intro n h1 h2
    simp only [Band.try_from]
    rw [if_neg (not_range (by omega)),
      if_neg (not_range (by omega)),
      if_neg (not_range (by omega)),
      if_neg (not_range (by omega)),
      if_neg (not_range (by omega)),
      if_neg (not_range (by omega)),
      if_neg (not_range (by omega)),
      if_neg (not_range (by omega)),
      if_neg (not_range (by omega)),
      if_neg (not_range (by omega)),
      if_neg (not_range (by omega)),
      if_neg (not_range (by omega)),
      if_neg (not_range (by omega)),
      if_neg (not_range (by omega)),
      if_neg (not_range (by omega)),
      if_neg (not_range (by omega)),
      if_pos ⟨h1, h2⟩]
  · intro n h1 h2
    simp only [Band.try_from]
    rw [if_neg (not_range (by omega)),
      if_neg (not_range (by omega)),
      if_neg (not_range (by omega)),
      if_neg (not_range (by omega)),
      if_neg (not_range (by omega)),
      if_neg (not_range (by omega)),
      if_neg (not_range (by omega)),
      if_neg (not_range (by omega)),
      if_neg (not_range (by omega)),
      if_neg (not_range (by omega)),
      if_neg (not_range (by omega)),
      if_neg (not_range (by omega)),
      if_neg (not_range (by omega)),
      if_neg (not_range (by omega)),
      if_neg (not_range (by omega)),
      if_neg (not_range (by omega)),
      if_neg (not_range (by omega)),
      if_pos ⟨h1, h2⟩]
  · intro n h1 h2
    simp only [Band.try_from]
    rw [if_neg (not_range (by omega)),
      if_neg (not_range (by omega)),
      if_neg (not_range (by omega)),
      if_neg (not_range (by omega)),
      if_neg (not_range (by omega)),
      if_neg (not_range (by omega)),
      if_neg (not_range (by omega)),
      if_neg (not_range (by omega)),
      if_neg (not_range (by omega)),
      if_neg (not_range (by omega)),
      if_neg (not_range (by omega)),
      if_neg (not_range (by omega)),
      if_neg (not_range (by omega)),
      if_neg (not_range (by omega)),
      if_neg (not_range (by omega)),
      if_neg (not_range (by omega)),
      if_neg (not_range (by omega)),
      if_neg (not_range (by omega)),
      if_pos ⟨h1, h2⟩]
  · intro n h1 h2
    simp only [Band.try_from]
    rw [if_neg (not_range (by omega)),
      if_neg (not_range (by omega)),
      if_neg (not_range (by omega)),
      if_neg (not_range (by omega)),
      if_neg (not_range (by omega)),
      if_neg (not_range (by omega)),
      if_neg (not_range (by omega)),
      if_neg (not_range (by omega)),
      if_neg (not_range (by omega)),
      if_neg (not_range (by omega)),
      if_neg (not_range (by omega)),
      if_neg (not_range (by omega)),
      if_neg (not_range (by omega)),
      if_neg (not_range (by omega)),
      if_neg (not_range (by omega)),
      if_neg (not_range (by omega)),
      if_neg (not_range (by omega)),
      if_neg (not_range (by omega)),
      if_neg (not_range (by omega)),
      if_pos ⟨h1, h2⟩]
  · intro n h1 h2
    simp only [Band.try_from]
    rw [if_neg (not_range (by omega)),
      if_neg (not_range (by omega)),
      if_neg (not_range (by omega)),
      if_neg (not_range (by omega)),
      if_neg (not_range (by omega)),
      if_neg (not_range (by omega)),
      if_neg (not_range (by omega)),
      if_neg (not_range (by omega)),
      if_neg (not_range (by omega)),
      if_neg (not_range (by omega)),
      if_neg (not_range (by omega)),
      if_neg (not_range (by omega)),
      if_neg (not_range (by omega)),
      if_neg (not_range (by omega)),
      if_neg (not_range (by omega)),
      if_neg (not_range (by omega)),
      if_neg (not_range (by omega)),
      if_neg (not_range (by omega)),
      if_neg (not_range (by omega)),
      if_neg (not_range (by omega)),
      if_pos ⟨h1, h2⟩]
  · intro n h1 h2
    simp only [Band.try_from]
    rw [if_neg (not_range (by omega)),
      if_neg (not_range (by omega)),
      if_neg (not_range (by omega)),
      if_neg (not_range (by omega)),
      if_neg (not_range (by omega)),
      if_neg (not_range (by omega)),
      if_neg (not_range (by omega)),
      if_neg (not_range (by omega)),
      if_neg (not_range (by omega)),
      if_neg (not_range (by omega)),
      if_neg (not_range (by omega)),
      if_neg (not_range (by omega)),
      if_neg (not_range (by omega)),
      if_neg (not_range (by omega)),
      if_neg (not_range (by omega)),
      if_neg (not_range (by omega)),
      if_neg (not_range (by omega)),
      if_neg (not_range (by omega)),
      if_neg (not_range (by omega)),
      if_neg (not_range (by omega)),
      if_neg (not_range (by omega)),
      if_pos ⟨h1, h2⟩]
  · intro n h1 h2
    simp only [Band.try_from]
    rw [if_neg (not_range (by omega)),
      if_neg (not_range (by omega)),
      if_neg (not_range (by omega)),
      if_neg (not_range (by omega)),
      if_neg (not_range (by omega)),
      if_neg (not_range (by omega)),
      if_neg (not_range (by omega)),
      if_neg (not_range (by omega)),
      if_neg (not_range (by omega)),
      if_neg (not_range (by omega)),
      if_neg (not_range (by omega)),
      if_neg (not_range (by omega)),
      if_neg (not_range (by omega)),
      if_neg (not_range (by omega)),
      if_neg (not_range (by omega)),
      if_neg (not_range (by omega)),
      if_neg (not_range (by omega)),
      if_neg (not_range (by omega)),
      if_neg (not_range (by omega)),
      if_neg (not_range (by omega)),
      if_neg (not_range (by omega)),
      if_neg (not_range (by omega)),
      if_pos ⟨h1, h2⟩]
  · intro n h1
    simp only [Band.try_from]
    rw [if_neg (not_range (by omega)),
      if_neg (not_range (by omega)),
      if_neg (not_range (by omega)),
      if_neg (not_range (by omega)),
      if_neg (not_range (by omega)),
      if_neg (not_range (by omega)),
      if_neg (not_range (by omega)),
      if_neg (not_range (by omega)),
      if_neg (not_range (by omega)),
      if_neg (not_range (by omega)),
      if_neg (not_range (by omega)),
      if_neg (not_range (by omega)),
      if_neg (not_range (by omega)),
      if_neg (not_range (by omega)),
      if_neg (not_range (by omega)),
      if_neg (not_range (by omega)),
      if_neg (not_range (by omega)),
      if_neg (not_range (by omega)),
      if_neg (not_range (by omega)),
      if_neg (not_range (by omega)),
      if_neg (not_range (by omega)),
      if_neg (not_range (by omega)),
      if_neg (not_range (by omega)),
      if_pos h1]
  · intro n hlt hnr
    simp only [in_some_band_range, Bool.or_eq_false_iff, Bool.and_eq_false_iff,
      decide_eq_false_iff_not, Nat.not_le] at hnr
    obtain ⟨hnr, q23⟩ := hnr
    obtain ⟨hnr, q22⟩ := hnr
    obtain ⟨hnr, q21⟩ := hnr
    obtain ⟨hnr, q20⟩ := hnr
    obtain ⟨hnr, q19⟩ := hnr
    obtain ⟨hnr, q18⟩ := hnr
    obtain ⟨hnr, q17⟩ := hnr
    obtain ⟨hnr, q16⟩ := hnr
    obtain ⟨hnr, q15⟩ := hnr
    obtain ⟨hnr, q14⟩ := hnr
    obtain ⟨hnr, q13⟩ := hnr
    obtain ⟨hnr, q12⟩ := hnr
    obtain ⟨hnr, q11⟩ := hnr
    obtain ⟨hnr, q10⟩ := hnr
    obtain ⟨hnr, q9⟩ := hnr
    obtain ⟨hnr, q8⟩ := hnr
    obtain ⟨hnr, q7⟩ := hnr
    obtain ⟨hnr, q6⟩ := hnr
    obtain ⟨hnr, q5⟩ := hnr
    obtain ⟨hnr, q4⟩ := hnr
    obtain ⟨hnr, q3⟩ := hnr
    obtain ⟨hnr, q2⟩ := hnr
    simp only [Band.try_from]
    rw [if_neg (not_range hnr),
      if_neg (not_range q2),
      if_neg (not_range q3),
      if_neg (not_range q4),
      if_neg (not_range q5),
      if_neg (not_range q6),
      if_neg (not_range q7),
      if_neg (not_range q8),
      if_neg (not_range q9),
      if_neg (not_range q10),
      if_neg (not_range q11),
      if_neg (not_range q12),
      if_neg (not_range q13),
      if_neg (not_range q14),
      if_neg (not_range q15),
      if_neg (not_range q16),
      if_neg (not_range q17),
      if_neg (not_range q18),
      if_neg (not_range q19),
      if_neg (not_range q20),
      if_neg (not_range q21),
      if_neg (not_range q22),
      if_neg (not_range q23),
      if_neg (by omega)]

/-- C8 witness: the mapping evaluated inside a range, above the light
threshold, and at an out-of-range value. -/
theorem band_from_frequency_ranges_witness :
    Band.try_from (Frequency.Khz 1900) = some Band.Band160M ∧
    Band.try_from (Frequency.Khz 500000000) = some Band.Light ∧
    Band.try_from (Frequency.Khz 100) = none := by
  have h := band_from_frequency_ranges
  exact ⟨h.1 1900 (by norm_num) (by norm_num),
    h.2.2.2.2.2.2.2.2.2.2.2.2.2.2.2.2.2.2.2.2.2.2.2.1 500000000 (by norm_num),
    h.2.2.2.2.2.2.2.2.2.2.2.2.2.2.2.2.2.2.2.2.2.2.2.2.1 100 (by norm_num) (by decide)⟩

/-- C6: for every QSO line matched by Format A, the sent (resp. received)
report field of the produced contact record is exactly the optional
signal-report re-parse of the fifth (resp. eighth) token, and the sent
(resp. received) exchange string is that token and the following exchange
token joined by a single space; the report re-parse itself can never fail
the line.  The statement quantifies over the alphabetic character class
used by the exchange tokenizer, so it covers the program's actual class
(char::is_alphabetic, the Unicode Alphabetic property). -/
theorem qso_format1_report_extraction (is_alphabetic : Char → Bool)
    (value t1 t2 t3 t4 t5 t6 t7 t8 t9 rest : List Char) (qso : Qso)
    (htok : cabrillo_qso_format1 is_alphabetic value =
      some ((t1, t2, t3, t4, t5, t6, t7, t8, t9), rest))
    (hq : CabrilloLog.parse_qso_format1 is_alphabetic value = some qso) :
    qso.rst_sent = SignalReport.from_str t5 ∧
    qso.exch_sent = t5 ++ ' ' :: t6 ∧
    qso.rst_recvd = SignalReport.from_str t8 ∧
    qso.exch_recvd = t8 ++ ' ' :: t9 := by
  unfold CabrilloLog.parse_qso_format1 at hq
  split at hq
  next heq =>
    rw [htok] at heq
    exact Option.noConfusion heq
  next a1 a2 a3 a4 a5 a6 a7 a8 a9 r heq =>
    rw [htok] at heq
    simp only [Option.some.injEq, Prod.mk.injEq] at heq
    obtain ⟨⟨e1, e2, e3, e4, e5, e6, e7, e8, e9⟩, er⟩ := heq
    subst e1
    subst e2
    subst e3
    subst e4
    subst e5
    subst e6
    subst e7
    subst e8
    subst e9
    split at hq
    next => exact Option.noConfusion hq
    next f hf =>
      split at hq
      next => exact Option.noConfusion hq
      next m hm =>
        split at hq
        next => exact Option.noConfusion hq
        next ts hts =>
          injection hq with hq
          subst hq
          exact ⟨rfl, rfl, rfl, rfl⟩

/-- C6 witness: the extraction theorem applied to a concrete Format A line
whose report tokens are valid signal reports. -/
theorem qso_format1_report_extraction_witness :
    (⟨Frequency.Khz 14250, Mode.Cw, ⟨2021, 6, 12, 13, 45⟩, ("W1AW".data),
      some ⟨5, 9, 9⟩, ("599 001".data), ("K3AH".data), some ⟨5, 7, 9⟩,
      ("579 002".data), false⟩ : Qso).rst_sent = SignalReport.from_str ("599".data) ∧
    (⟨Frequency.Khz 14250, Mode.Cw, ⟨2021, 6, 12, 13, 45⟩, ("W1AW".data),
      some ⟨5, 9, 9⟩, ("599 001".data), ("K3AH".data), some ⟨5, 7, 9⟩,
      ("579 002".data), false⟩ : Qso).exch_sent = ("599".data) ++ ' ' :: ("001".data) ∧
    (⟨Frequency.Khz 14250, Mode.Cw, ⟨2021, 6, 12, 13, 45⟩, ("W1AW".data),
      some ⟨5, 9, 9⟩, ("599 001".data), ("K3AH".data), some ⟨5, 7, 9⟩,
      ("579 002".data), false⟩ : Qso).rst_recvd = SignalReport.from_str ("579".data) ∧
    (⟨Frequency.Khz 14250, Mode.Cw, ⟨2021, 6, 12, 13, 45⟩, ("W1AW".data),
      some ⟨5, 9, 9⟩, ("599 001".data), ("K3AH".data), some ⟨5, 7, 9⟩,
      ("579 002".data), false⟩ : Qso).exch_recvd = ("579".data) ++ ' ' :: ("002".data) :=
  qso_format1_report_extraction is_ascii_alpha
    ("14250 CW 2021-06-12 1345 W1AW 599 001 K3AH 579 002".data)
    ("14250".data) ("CW".data) ("2021-06-12 1345".data) ("W1AW".data)
    ("599".data) ("001".data) ("K3AH".data) ("579".data) ("002".data) []
    _ (by rfl) (by rfl)

/-- Binding a some through Option.bind applies the continuation. -/
theorem opt_bind_some {α β : Type} (a : α) (f : α → Option β) : (some a).bind f = f a := rfl

/-- Binding a none through Option.bind is none. -/
theorem opt_bind_none {α β : Type} (f : α → Option β) :
    (none : Option α).bind f = none := rfl

/-- Every member of a takeWhile run satisfies the predicate. -/
theorem mem_takeWhile_sat (p : Char → Bool) :
    ∀ (l : List Char) (c : Char), c ∈ l.takeWhile p → p c = true := by
  intro l
  induction l with
  | nil => intro c hc; simp [List.takeWhile] at hc
  | cons a t ih =>
    intro c hc
    by_cases ha : p a = true
    · rw [List.takeWhile_cons_of_pos ha] at hc
      rcases List.mem_cons.mp hc with rfl | hc
      · exact ha
      · exact ih c hc
    · rw [List.takeWhile_cons_of_neg ha] at hc
      simp at hc

/-- takeWhile keeps the whole list when every member satisfies the
predicate. -/
theorem takeWhile_eq_self_of_all (p : Char → Bool) :
    ∀ l : List Char, (∀ c ∈ l, p c = true) → l.takeWhile p = l := by
  intro l
  induction l with
  | nil => intro _; rfl
  | cons a t ih =>
    intro h
    rw [List.takeWhile_cons_of_pos (h a (List.mem_cons_self a t))]
    rw [ih (fun c hc => h c (List.mem_cons_of_mem a hc))]

/-- takeWhile stops exactly at the first failing character. -/
theorem takeWhile_append_of_not (p : Char → Bool) (t : List Char) (c : Char) (r : List Char)
    (ht : ∀ x ∈ t, p x = true) (hc : p c = false) :
    (t ++ c :: r).takeWhile p = t := by
  induction t with
  | nil =>
    simp only [List.nil_append]
    rw [List.takeWhile_cons_of_neg (by simp [hc])]
  | cons a t2 ih =>
    rw [List.cons_append, List.takeWhile_cons_of_pos (ht a (List.mem_cons_self a t2))]
    rw [ih (fun x hx => ht x (List.mem_cons_of_mem a hx))]

/-- Dropping the length of the takeWhile run leaves the dropWhile
remainder. -/
theorem drop_takeWhile_length (p : Char → Bool) :
    ∀ l : List Char, l.drop (l.takeWhile p).length = l.dropWhile p := by
  intro l
  induction l with
  | nil => rfl
  | cons a t ih =>
    by_cases h : p a = true
    · rw [List.takeWhile_cons_of_pos h, List.dropWhile_cons_of_pos h]
      simpa using ih
    · rw [List.takeWhile_cons_of_neg (by simp [h]), List.dropWhile_cons_of_neg (by simp [h])]
      rfl

/-- A two-character literal is a prefix exactly of lists starting with those
two characters. -/
theorem isPrefixOf_pair (a b : Char) (r : List Char) :
    ([a, b] : List Char).isPrefixOf r = true ↔ ∃ r2, r = a :: b :: r2 := by
  cases r with
  | nil => simp [List.isPrefixOf]
  | cons x xs =>
    cases xs with
    | nil => simp [List.isPrefixOf]
    | cons y ys =>
      constructor
      · intro h
        simp [List.isPrefixOf] at h
        exact ⟨ys, by rw [h.1, h.2]⟩
      · rintro ⟨r2, hr⟩
        injection hr with h1 hr
        injection hr with h2 hr
        subst h1
        subst h2
        subst hr
        simp [List.isPrefixOf]

/-- A successful take_while1_p run returns the takeWhile prefix, which is
nonempty, plus the rest of the input. -/
theorem take_while1_p_some (p : Char → Bool) (i t r : List Char)
    (h : take_while1_p p i = some (t, r)) :
    t = i.takeWhile p ∧ r = i.drop t.length ∧ t ≠ [] := by
  simp only [take_while1_p] at h
  split at h
  · exact Option.noConfusion h
  next hne =>
    simp only [Option.some.injEq, Prod.mk.injEq] at h
    obtain ⟨h1, h2⟩ := h
    subst h1
    subst h2
    refine ⟨rfl, rfl, ?_⟩
    intro hnil
    rw [hnil] at hne
    exact hne rfl

/-- A success of the first cabrillo_tag arm forces the line to split as a
nonempty run of tag characters, the colon-space separator, and a
remainder. -/
theorem cabrillo_tag_arm1_split (line : List Char)
    (res : (List Char × List Char) × List Char)
    (h : cabrillo_tag_arm1 line = some res) :
    ∃ t v, line = t ++ ':' :: ' ' :: v ∧ t ≠ [] ∧ (∀ c ∈ t, is_cabrillo_tag c = true) := by
  unfold cabrillo_tag_arm1 at h
  rcases h1 : take_while1_p is_cabrillo_tag line with _ | ⟨t, r1⟩
  · rw [h1, opt_bind_none] at h
    exact Option.noConfusion h
  rw [h1, opt_bind_some] at h
  obtain ⟨ht1, ht2, ht3⟩ := take_while1_p_some is_cabrillo_tag line t r1 h1
  rcases h2 : tag_p (": ".data) r1 with _ | ⟨pr, r2⟩
  · rw [h2] at h
    exact Option.noConfusion h
  have hpre : (": ".data).isPrefixOf r1 = true := by
    by_contra hp
    unfold tag_p at h2
    rw [if_neg hp] at h2
    exact Option.noConfusion h2
  obtain ⟨r3, hr3⟩ := (isPrefixOf_pair ':' ' ' r1).mp hpre
  refine ⟨t, r3, ?_, ht3, ?_⟩
  · have hsplit := List.takeWhile_append_dropWhile (p := is_cabrillo_tag) (l := line)
    rw [← ht1] at hsplit
    rw [← hsplit]
    have : line.dropWhile is_cabrillo_tag = r1 := by
      rw [ht2, ht1, drop_takeWhile_length]
    rw [this, hr3]
  · intro c hc
    rw [ht1] at hc
    exact mem_takeWhile_sat is_cabrillo_tag line c hc

/-- A line that splits as tag-run, colon-space, remainder (free of carriage
returns and newlines) is accepted by the first cabrillo_tag arm, returning
the run, the remainder, and no leftover input. -/
theorem cabrillo_tag_arm1_of_split (t v : List Char)
    (ht : t ≠ []) (htc : ∀ c ∈ t, is_cabrillo_tag c = true)
    (hv : ∀ c ∈ v, c ≠ '\r' ∧ c ≠ '\n') :
    cabrillo_tag_arm1 (t ++ ':' :: ' ' :: v) = some ((t, v), []) := by
  have hcol : is_cabrillo_tag ':' = false := by decide
  have htw : (t ++ ':' :: ' ' :: v).takeWhile is_cabrillo_tag = t :=
    takeWhile_append_of_not is_cabrillo_tag t ':' (' ' :: v) htc hcol
  have h1 : take_while1_p is_cabrillo_tag (t ++ ':' :: ' ' :: v) =
      some (t, ':' :: ' ' :: v) := by
    unfold take_while1_p
    rw [htw, if_neg (by simp [ht]), List.drop_left]
  have h2 : tag_p (": ".data) (':' :: ' ' :: v) = some ((": ".data), v) := by
    unfold tag_p
    rw [if_pos (by simp [List.isPrefixOf])]
    rfl
  have h3 : not_line_ending v = some (v, []) := by
    have htv : v.takeWhile (fun c => !(c == '\r' || c == '\n')) = v :=
      takeWhile_eq_self_of_all _ v (fun c hc => by
        obtain ⟨hcr, hcn⟩ := hv c hc
        simp [hcr, hcn])
    unfold not_line_ending
    simp only [htv, List.drop_length]
  unfold cabrillo_tag_arm1
  rw [h1, opt_bind_some]
  simp only []
  rw [h2, opt_bind_some]
  simp only []
  rw [h3]
  rfl

/-- C4 counterexample: the claim states that the only colon-free line the
tag grammar accepts is the exact literal END-OF-LOG and that every other
line is a malformed-line error; but the second alternative is a prefix match
whose remainder is discarded, so the line END-OF-LOGX is accepted and is
treated as END-OF-LOG with an empty value. -/
theorem tag_grammar_claim_counterexample :
    cabrillo_tag ("END-OF-LOGX".data) = some ((("END-OF-LOG".data), []), ("X".data)) ∧
    ∀ is_alphabetic : Char → Bool,
      CabrilloLog.parse_line is_alphabetic CabrilloLog.new ("END-OF-LOGX".data) =
        some CabrilloLog.new :=
  ⟨rfl, fun _ => rfl⟩

/-- C4 (amended): on a line free of carriage returns and newlines, the tag
grammar accepts exactly two forms: a nonempty run of tag characters
immediately followed by colon-space yields that run and the rest of the line
with no leftover; otherwise any line beginning with the literal END-OF-LOG
(trailing characters ignored, left as unconsumed input) yields
END-OF-LOG with an empty value; every remaining line is a malformed-line
error. -/
theorem tag_grammar_amended :
    ∀ line : List Char, (∀ c ∈ line, c ≠ '\r' ∧ c ≠ '\n') →
      ((∀ t v, line = t ++ ':' :: ' ' :: v → t ≠ [] →
          (∀ c ∈ t, is_cabrillo_tag c = true) → cabrillo_tag line = some ((t, v), [])) ∧
       ((¬ ∃ t v, line = t ++ ':' :: ' ' :: v ∧ t ≠ [] ∧ ∀ c ∈ t, is_cabrillo_tag c = true) →
          ("END-OF-LOG".data).isPrefixOf line = true →
          cabrillo_tag line = some ((("END-OF-LOG".data), []), line.drop 10)) ∧
       ((¬ ∃ t v, line = t ++ ':' :: ' ' :: v ∧ t ≠ [] ∧ ∀ c ∈ t, is_cabrillo_tag c = true) →
          ("END-OF-LOG".data).isPrefixOf line = false →
          cabrillo_tag line = none)) := by
  intro line hno
  refine ⟨?_, ?_, ?_⟩
  · intro t v hline ht htc
    have hv : ∀ c ∈ v, c ≠ '\r' ∧ c ≠ '\n' := by
      intro c hc
      refine hno c ?_
      rw [hline]
      exact List.mem_append_right t (by simp [hc])
    have harm := cabrillo_tag_arm1_of_split t v ht htc hv
    rw [hline]
    unfold cabrillo_tag
    rw [harm]
  · intro hnsplit hpre
    rcases harm : cabrillo_tag_arm1 line with _ | res
    · unfold cabrillo_tag
      rw [harm]
      show (tag_p ("END-OF-LOG".data) line).map (fun tr => ((tr.1, []), tr.2)) =
        some ((("END-OF-LOG".data), []), line.drop 10)
      unfold tag_p
      rw [if_pos hpre]
      rfl
    · exact absurd (cabrillo_tag_arm1_split line res harm) hnsplit
  · intro hnsplit hpre
    rcases harm : cabrillo_tag_arm1 line with _ | res
    · unfold cabrillo_tag
      rw [harm]
      show (tag_p ("END-OF-LOG".data) line).map (fun tr => ((tr.1, []), tr.2)) = none
      unfold tag_p
      rw [if_neg (by simp [hpre])]
      rfl
    · exact absurd (cabrillo_tag_arm1_split line res harm) hnsplit

/-- C4 witness: the amended first form applied to the specification's
example line. -/
theorem tag_grammar_amended_witness :
    cabrillo_tag ("VERSION: 2.0".data) = some ((("VERSION".data), ("2.0".data)), []) :=
  (tag_grammar_amended ("VERSION: 2.0".data) (by decide)).1
    ("VERSION".data) ("2.0".data) (by rfl) (by decide) (by decide)


/-- Projection through a successful Option.map whose function leaves the
projection constant. -/
theorem proj_of_map_some {β γ : Type} (X : Option β) (f : β → CabrilloLog)
    (log2 : CabrilloLog) (g : CabrilloLog → γ) (v : γ)
    (h : X.map f = some log2) (hf : ∀ b, g (f b) = v) : g log2 = v := by
  rcases X with _ | x
  · exact Option.noConfusion h
  · injection h with h
    subst h
    exact hf x

/-- Effect of one parse_tag step on the address field: the five
ADDRESS-family tags append (after a newline when the field is already set),
every other tag leaves the field untouched. -/
theorem parse_tag_address_effect (is_alphabetic : Char → Bool) (log : CabrilloLog)
    (tag value0 : List Char) (log2 : CabrilloLog)
    (h : CabrilloLog.parse_tag is_alphabetic log tag value0 = some log2) :
    log2.address = (if tag = ("ADDRESS".data) ∨ tag = ("ADDRESS-CITY".data) ∨
        tag = ("ADDRESS-STATE-PROVINCE".data) ∨ tag = ("ADDRESS-POSTALCODE".data) ∨
        tag = ("ADDRESS-COUNTRY".data)
      then some (match log.address with
        | some a => a ++ '\n' :: rust_trim value0
        | none => rust_trim value0)
      else log.address) := by
  simp only [CabrilloLog.parse_tag] at h
  by_cases h1 : tag = ("START-OF-LOG".data)
  · rw [if_pos h1] at h
    subst h1
    rw [if_neg (by decide)]
    exact proj_of_map_some _ _ _ (fun l => l.address) _ h (fun _ => rfl)
  · rw [if_neg h1] at h
    by_cases h2 : tag = ("CALLSIGN".data)
    · rw [if_pos h2] at h
      injection h with h
      subst h
      subst h2
      rw [if_neg (by decide)]
    · rw [if_neg h2] at h
      by_cases h3 : tag = ("CONTEST".data)
      · rw [if_pos h3] at h
        injection h with h
        subst h
        subst h3
        rw [if_neg (by decide)]
      · rw [if_neg h3] at h
        by_cases h4 : tag = ("CATEGORY-ASSISTED".data)
        · rw [if_pos h4] at h
          by_cases hv1 : rust_trim value0 = ("ASSISTED".data)
          · rw [if_pos hv1] at h
            injection h with h
            subst h
            subst h4
            rw [if_neg (by decide)]
          · rw [if_neg hv1] at h
            by_cases hv2 : rust_trim value0 = ("NON-ASSISTED".data)
            · rw [if_pos hv2] at h
              injection h with h
              subst h
              subst h4
              rw [if_neg (by decide)]
            · rw [if_neg hv2] at h
              exact Option.noConfusion h
        · rw [if_neg h4] at h
          by_cases h5 : tag = ("CATEGORY-BAND".data)
          · rw [if_pos h5] at h
            subst h5
            rw [if_neg (by decide)]
            exact proj_of_map_some _ _ _ (fun l => l.address) _ h (fun _ => rfl)
          · rw [if_neg h5] at h
            by_cases h6 : tag = ("CATEGORY-MODE".data)
            · rw [if_pos h6] at h
              subst h6
              rw [if_neg (by decide)]
              exact proj_of_map_some _ _ _ (fun l => l.address) _ h (fun _ => rfl)
            · rw [if_neg h6] at h
              by_cases h7 : tag = ("CATEGORY-OPERATOR".data)
              · rw [if_pos h7] at h
                subst h7
                rw [if_neg (by decide)]
                exact proj_of_map_some _ _ _ (fun l => l.address) _ h (fun _ => rfl)
              · rw [if_neg h7] at h
                by_cases h8 : tag = ("CATEGORY-POWER".data)
                · rw [if_pos h8] at h
                  subst h8
                  rw [if_neg (by decide)]
                  exact proj_of_map_some _ _ _ (fun l => l.address) _ h (fun _ => rfl)
                · rw [if_neg h8] at h
                  by_cases h9 : tag = ("CATEGORY-STATION".data)
                  · rw [if_pos h9] at h
                    subst h9
                    rw [if_neg (by decide)]
                    exact proj_of_map_some _ _ _ (fun l => l.address) _ h (fun _ => rfl)
                  · rw [if_neg h9] at h
                    by_cases h10 : tag = ("CATEGORY-TIME".data)
                    · rw [if_pos h10] at h
                      subst h10
                      rw [if_neg (by decide)]
                      exact proj_of_map_some _ _ _ (fun l => l.address) _ h (fun _ => rfl)
                    · rw [if_neg h10] at h
                      by_cases h11 : tag = ("CATEGORY-TRANSMITTER".data)
                      · rw [if_pos h11] at h
                        subst h11
                        rw [if_neg (by decide)]
                        exact proj_of_map_some _ _ _ (fun l => l.address) _ h (fun _ => rfl)
                      · rw [if_neg h11] at h
                        by_cases h12 : tag = ("CATEGORY-OVERLAY".data)
                        · rw [if_pos h12] at h
                          subst h12
                          rw [if_neg (by decide)]
                          exact proj_of_map_some _ _ _ (fun l => l.address) _ h (fun _ => rfl)
                        · rw [if_neg h12] at h
                          by_cases h13 : tag = ("CERTIFICATE".data)
                          · rw [if_pos h13] at h
                            by_cases hv1 : rust_trim value0 = ("YES".data)
                            · rw [if_pos hv1] at h
                              injection h with h
                              subst h
                              subst h13
                              rw [if_neg (by decide)]
                            · rw [if_neg hv1] at h
                              by_cases hv2 : rust_trim value0 = ("NO".data)
                              · rw [if_pos hv2] at h
                                injection h with h
                                subst h
                                subst h13
                                rw [if_neg (by decide)]
                              · rw [if_neg hv2] at h
                                exact Option.noConfusion h
                          · rw [if_neg h13] at h
                            by_cases h14 : tag = ("CLAIMED-SCORE".data)
                            · rw [if_pos h14] at h
                              injection h with h
                              subst h
                              subst h14
                              rw [if_neg (by decide)]
                            · rw [if_neg h14] at h
                              by_cases h15 : tag = ("CLUB".data)
                              · rw [if_pos h15] at h
                                injection h with h
                                subst h
                                subst h15
                                rw [if_neg (by decide)]
                              · rw [if_neg h15] at h
                                by_cases h16 : tag = ("CREATED-BY".data)
                                · rw [if_pos h16] at h
                                  injection h with h
                                  subst h
                                  subst h16
                                  rw [if_neg (by decide)]
                                · rw [if_neg h16] at h
                                  by_cases h17 : tag = ("EMAIL".data)
                                  · rw [if_pos h17] at h
                                    by_cases hv1 : cabrillo_email (rust_trim value0) = true
                                    · rw [if_pos hv1] at h
                                      injection h with h
                                      subst h
                                      subst h17
                                      rw [if_neg (by decide)]
                                    · rw [if_neg hv1] at h
                                      exact Option.noConfusion h
                                  · rw [if_neg h17] at h
                                    by_cases h18 : tag = ("GRID-LOCATOR".data)
                                    · rw [if_pos h18] at h
                                      by_cases hv1 : cabrillo_grid_locator (rust_trim value0) = true
                                      · rw [if_pos hv1] at h
                                        injection h with h
                                        subst h
                                        subst h18
                                        rw [if_neg (by decide)]
                                      · rw [if_neg hv1] at h
                                        exact Option.noConfusion h
                                    · rw [if_neg h18] at h
                                      by_cases h19 : tag = ("LOCATION".data)
                                      · rw [if_pos h19] at h
                                        injection h with h
                                        subst h
                                        subst h19
                                        rw [if_neg (by decide)]
                                      · rw [if_neg h19] at h
                                        by_cases h20 : tag = ("NAME".data)
                                        · rw [if_pos h20] at h
                                          injection h with h
                                          subst h
                                          subst h20
                                          rw [if_neg (by decide)]
                                        · rw [if_neg h20] at h
                                          by_cases h21 : tag = ("ADDRESS".data) ∨ tag = ("ADDRESS-CITY".data) ∨
                                                                                        tag = ("ADDRESS-STATE-PROVINCE".data) ∨ tag = ("ADDRESS-POSTALCODE".data) ∨
                                                                                        tag = ("ADDRESS-COUNTRY".data)
                                          · rw [if_pos h21] at h
                                            injection h with h
                                            subst h
                                            rcases h21 with hk | hk | hk | hk | hk <;> subst hk <;> rw [if_pos (by decide)]
                                          · rw [if_neg h21] at h
                                            by_cases h22 : tag = ("OPERATORS".data)
                                            · rw [if_pos h22] at h
                                              injection h with h
                                              subst h
                                              subst h22
                                              rw [if_neg (by decide)]
                                            · rw [if_neg h22] at h
                                              by_cases h23 : tag = ("OFFTIME".data)
                                              · rw [if_pos h23] at h
                                                split at h
                                                · exact Option.noConfusion h
                                                · split at h
                                                  · injection h with h
                                                    subst h
                                                    subst h23
                                                    rw [if_neg (by decide)]
                                                  · exact Option.noConfusion h
                                              · rw [if_neg h23] at h
                                                by_cases h24 : tag = ("SOAPBOX".data)
                                                · rw [if_pos h24] at h
                                                  injection h with h
                                                  subst h
                                                  subst h24
                                                  rw [if_neg (by decide)]
                                                · rw [if_neg h24] at h
                                                  by_cases h25 : tag = ("QSO".data) ∨ tag = ("X-QSO".data)
                                                  · rw [if_pos h25] at h
                                                    split at h
                                                    · exact Option.noConfusion h
                                                    · rcases h25 with hk | hk <;> subst hk
                                                      · rw [if_pos rfl] at h
                                                        injection h with h
                                                        subst h
                                                        rw [if_neg (by decide)]
                                                      · rw [if_neg (by decide)] at h
                                                        injection h with h
                                                        subst h
                                                        rw [if_neg (by decide)]
                                                  · rw [if_neg h25] at h
                                                    by_cases h26 : tag = ("DEBUG".data)
                                                    · rw [if_pos h26] at h
                                                      injection h with h
                                                      subst h
                                                      subst h26
                                                      rw [if_neg (by decide)]
                                                    · rw [if_neg h26] at h
                                                      by_cases h27 : tag = ("END-OF-LOG".data)
                                                      · rw [if_pos h27] at h
                                                        injection h with h
                                                        subst h
                                                        subst h27
                                                        rw [if_neg (by decide)]
                                                      · rw [if_neg h27] at h
                                                        injection h with h
                                                        subst h
                                                        rw [if_neg h21]

/-- Effect of one parse_tag step on the soapbox field: the SOAPBOX tag
appends (after a newline when the field is already set), every other tag
leaves the field untouched. -/
theorem parse_tag_soapbox_effect (is_alphabetic : Char → Bool) (log : CabrilloLog)
    (tag value0 : List Char) (log2 : CabrilloLog)
    (h : CabrilloLog.parse_tag is_alphabetic log tag value0 = some log2) :
    log2.soapbox = (if tag = ("SOAPBOX".data)
      then some (match log.soapbox with
        | some a => a ++ '\n' :: rust_trim value0
        | none => rust_trim value0)
      else log.soapbox) := by
  simp only [CabrilloLog.parse_tag] at h
  by_cases h1 : tag = ("START-OF-LOG".data)
  · rw [if_pos h1] at h
    subst h1
    rw [if_neg (by decide)]
    exact proj_of_map_some _ _ _ (fun l => l.soapbox) _ h (fun _ => rfl)
  · rw [if_neg h1] at h
    by_cases h2 : tag = ("CALLSIGN".data)
    · rw [if_pos h2] at h
      injection h with h
      subst h
      subst h2
      rw [if_neg (by decide)]
    · rw [if_neg h2] at h
      by_cases h3 : tag = ("CONTEST".data)
      · rw [if_pos h3] at h
        injection h with h
        subst h
        subst h3
        rw [if_neg (by decide)]
      · rw [if_neg h3] at h
        by_cases h4 : tag = ("CATEGORY-ASSISTED".data)
        · rw [if_pos h4] at h
          by_cases hv1 : rust_trim value0 = ("ASSISTED".data)
          · rw [if_pos hv1] at h
            injection h with h
            subst h
            subst h4
            rw [if_neg (by decide)]
          · rw [if_neg hv1] at h
            by_cases hv2 : rust_trim value0 = ("NON-ASSISTED".data)
            · rw [if_pos hv2] at h
              injection h with h
              subst h
              subst h4
              rw [if_neg (by decide)]
            · rw [if_neg hv2] at h
              exact Option.noConfusion h
        · rw [if_neg h4] at h
          by_cases h5 : tag = ("CATEGORY-BAND".data)
          · rw [if_pos h5] at h
            subst h5
            rw [if_neg (by decide)]
            exact proj_of_map_some _ _ _ (fun l => l.soapbox) _ h (fun _ => rfl)
          · rw [if_neg h5] at h
            by_cases h6 : tag = ("CATEGORY-MODE".data)
            · rw [if_pos h6] at h
              subst h6
              rw [if_neg (by decide)]
              exact proj_of_map_some _ _ _ (fun l => l.soapbox) _ h (fun _ => rfl)
            · rw [if_neg h6] at h
              by_cases h7 : tag = ("CATEGORY-OPERATOR".data)
              · rw [if_pos h7] at h
                subst h7
                rw [if_neg (by decide)]
                exact proj_of_map_some _ _ _ (fun l => l.soapbox) _ h (fun _ => rfl)
              · rw [if_neg h7] at h
                by_cases h8 : tag = ("CATEGORY-POWER".data)
                · rw [if_pos h8] at h
                  subst h8
                  rw [if_neg (by decide)]
                  exact proj_of_map_some _ _ _ (fun l => l.soapbox) _ h (fun _ => rfl)
                · rw [if_neg h8] at h
                  by_cases h9 : tag = ("CATEGORY-STATION".data)
                  · rw [if_pos h9] at h
                    subst h9
                    rw [if_neg (by decide)]
                    exact proj_of_map_some _ _ _ (fun l => l.soapbox) _ h (fun _ => rfl)
                  · rw [if_neg h9] at h
                    by_cases h10 : tag = ("CATEGORY-TIME".data)
                    · rw [if_pos h10] at h
                      subst h10
                      rw [if_neg (by decide)]
                      exact proj_of_map_some _ _ _ (fun l => l.soapbox) _ h (fun _ => rfl)
                    · rw [if_neg h10] at h
                      by_cases h11 : tag = ("CATEGORY-TRANSMITTER".data)
                      · rw [if_pos h11] at h
                        subst h11
                        rw [if_neg (by decide)]
                        exact proj_of_map_some _ _ _ (fun l => l.soapbox) _ h (fun _ => rfl)
                      · rw [if_neg h11] at h
                        by_cases h12 : tag = ("CATEGORY-OVERLAY".data)
                        · rw [if_pos h12] at h
                          subst h12
                          rw [if_neg (by decide)]
                          exact proj_of_map_some _ _ _ (fun l => l.soapbox) _ h (fun _ => rfl)
                        · rw [if_neg h12] at h
                          by_cases h13 : tag = ("CERTIFICATE".data)
                          · rw [if_pos h13] at h
                            by_cases hv1 : rust_trim value0 = ("YES".data)
                            · rw [if_pos hv1] at h
                              injection h with h
                              subst h
                              subst h13
                              rw [if_neg (by decide)]
                            · rw [if_neg hv1] at h
                              by_cases hv2 : rust_trim value0 = ("NO".data)
                              · rw [if_pos hv2] at h
                                injection h with h
                                subst h
                                subst h13
                                rw [if_neg (by decide)]
                              · rw [if_neg hv2] at h
                                exact Option.noConfusion h
                          · rw [if_neg h13] at h
                            by_cases h14 : tag = ("CLAIMED-SCORE".data)
                            · rw [if_pos h14] at h
                              injection h with h
                              subst h
                              subst h14
                              rw [if_neg (by decide)]
                            · rw [if_neg h14] at h
                              by_cases h15 : tag = ("CLUB".data)
                              · rw [if_pos h15] at h
                                injection h with h
                                subst h
                                subst h15
                                rw [if_neg (by decide)]
                              · rw [if_neg h15] at h
                                by_cases h16 : tag = ("CREATED-BY".data)
                                · rw [if_pos h16] at h
                                  injection h with h
                                  subst h
                                  subst h16
                                  rw [if_neg (by decide)]
                                · rw [if_neg h16] at h
                                  by_cases h17 : tag = ("EMAIL".data)
                                  · rw [if_pos h17] at h
                                    by_cases hv1 : cabrillo_email (rust_trim value0) = true
                                    · rw [if_pos hv1] at h
                                      injection h with h
                                      subst h
                                      subst h17
                                      rw [if_neg (by decide)]
                                    · rw [if_neg hv1] at h
                                      exact Option.noConfusion h
                                  · rw [if_neg h17] at h
                                    by_cases h18 : tag = ("GRID-LOCATOR".data)
                                    · rw [if_pos h18] at h
                                      by_cases hv1 : cabrillo_grid_locator (rust_trim value0) = true
                                      · rw [if_pos hv1] at h
                                        injection h with h
                                        subst h
                                        subst h18
                                        rw [if_neg (by decide)]
                                      · rw [if_neg hv1] at h
                                        exact Option.noConfusion h
                                    · rw [if_neg h18] at h
                                      by_cases h19 : tag = ("LOCATION".data)
                                      · rw [if_pos h19] at h
                                        injection h with h
                                        subst h
                                        subst h19
                                        rw [if_neg (by decide)]
                                      · rw [if_neg h19] at h
                                        by_cases h20 : tag = ("NAME".data)
                                        · rw [if_pos h20] at h
                                          injection h with h
                                          subst h
                                          subst h20
                                          rw [if_neg (by decide)]
                                        · rw [if_neg h20] at h
                                          by_cases h21 : tag = ("ADDRESS".data) ∨ tag = ("ADDRESS-CITY".data) ∨
                                                                                        tag = ("ADDRESS-STATE-PROVINCE".data) ∨ tag = ("ADDRESS-POSTALCODE".data) ∨
                                                                                        tag = ("ADDRESS-COUNTRY".data)
                                          · rw [if_pos h21] at h
                                            injection h with h
                                            subst h
                                            rcases h21 with hk | hk | hk | hk | hk <;> subst hk <;> rw [if_neg (by decide)]
                                          · rw [if_neg h21] at h
                                            by_cases h22 : tag = ("OPERATORS".data)
                                            · rw [if_pos h22] at h
                                              injection h with h
                                              subst h
                                              subst h22
                                              rw [if_neg (by decide)]
                                            · rw [if_neg h22] at h
                                              by_cases h23 : tag = ("OFFTIME".data)
                                              · rw [if_pos h23] at h
                                                split at h
                                                · exact Option.noConfusion h
                                                · split at h
                                                  · injection h with h
                                                    subst h
                                                    subst h23
                                                    rw [if_neg (by decide)]
                                                  · exact Option.noConfusion h
                                              · rw [if_neg h23] at h
                                                by_cases h24 : tag = ("SOAPBOX".data)
                                                · rw [if_pos h24] at h
                                                  injection h with h
                                                  subst h
                                                  subst h24
                                                  rw [if_pos (by decide)]
                                                · rw [if_neg h24] at h
                                                  by_cases h25 : tag = ("QSO".data) ∨ tag = ("X-QSO".data)
                                                  · rw [if_pos h25] at h
                                                    split at h
                                                    · exact Option.noConfusion h
                                                    · rcases h25 with hk | hk <;> subst hk
                                                      · rw [if_pos rfl] at h
                                                        injection h with h
                                                        subst h
                                                        rw [if_neg (by decide)]
                                                      · rw [if_neg (by decide)] at h
                                                        injection h with h
                                                        subst h
                                                        rw [if_neg (by decide)]
                                                  · rw [if_neg h25] at h
                                                    by_cases h26 : tag = ("DEBUG".data)
                                                    · rw [if_pos h26] at h
                                                      injection h with h
                                                      subst h
                                                      subst h26
                                                      rw [if_neg (by decide)]
                                                    · rw [if_neg h26] at h
                                                      by_cases h27 : tag = ("END-OF-LOG".data)
                                                      · rw [if_pos h27] at h
                                                        injection h with h
                                                        subst h
                                                        subst h27
                                                        rw [if_neg (by decide)]
                                                      · rw [if_neg h27] at h
                                                        injection h with h
                                                        subst h
                                                        rw [if_neg h24]

/-- Membership in the address-tag list unfolded to the five equalities. -/
theorem mem_address_tags (tag : List Char) :
    tag ∈ address_tags ↔ (tag = ("ADDRESS".data) ∨ tag = ("ADDRESS-CITY".data) ∨
      tag = ("ADDRESS-STATE-PROVINCE".data) ∨ tag = ("ADDRESS-POSTALCODE".data) ∨
      tag = ("ADDRESS-COUNTRY".data)) := by
  simp [address_tags]

/-- C9: the multi-line concatenable fields start unset; an ADDRESS-family
(resp. SOAPBOX) tag sets the field on first occurrence and on every later
occurrence appends the new value after a single newline; every other tag
leaves the field unchanged; and across every successful parse_tag step the
previous content is preserved as a prefix — never overwritten. -/
theorem multiline_accumulation_invariant :
    (CabrilloLog.new.address = none ∧ CabrilloLog.new.soapbox = none) ∧
    (∀ (is_alphabetic : Char → Bool) (log : CabrilloLog) (tag value : List Char)
      (log2 : CabrilloLog),
      CabrilloLog.parse_tag is_alphabetic log tag value = some log2 →
      ((tag ∈ address_tags → log2.address = multiline_append log.address (rust_trim value)) ∧
       (tag ∉ address_tags → log2.address = log.address) ∧
       (tag = ("SOAPBOX".data) → log2.soapbox = multiline_append log.soapbox (rust_trim value)) ∧
       (tag ≠ ("SOAPBOX".data) → log2.soapbox = log.soapbox) ∧
       (∀ a, log.address = some a → ∃ r, log2.address = some (a ++ r)) ∧
       (∀ a, log.soapbox = some a → ∃ r, log2.soapbox = some (a ++ r)))) := by
  refine ⟨⟨rfl, rfl⟩, ?_⟩
  intro is_alphabetic log tag value log2 h
  have ha := parse_tag_address_effect is_alphabetic log tag value log2 h
  have hs := parse_tag_soapbox_effect is_alphabetic log tag value log2 h
  refine ⟨?_, ?_, ?_, ?_, ?_, ?_⟩
  · intro hm
    rw [ha, if_pos ((mem_address_tags tag).mp hm)]
    rfl
  · intro hm
    rw [ha, if_neg (fun hc => hm ((mem_address_tags tag).mpr hc))]
  · intro hm
    rw [hs, if_pos hm]
    rfl
  · intro hm
    rw [hs, if_neg hm]
  · intro a haddr
    rw [ha]
    split
    · rw [haddr]
      exact ⟨'\n' :: rust_trim value, rfl⟩
    · rw [haddr]
      exact ⟨[], by rw [List.append_nil]⟩
  · intro a hsoap
    rw [hs]
    split
    · rw [hsoap]
      exact ⟨'\n' :: rust_trim value, rfl⟩
    · rw [hsoap]
      exact ⟨[], by rw [List.append_nil]⟩

/-- C9 witness: first occurrence sets the field, a second ADDRESS-family
occurrence appends after a newline, an unrelated tag preserves the field,
and a SOAPBOX occurrence sets the soapbox field. -/
theorem multiline_accumulation_invariant_witness :
    ({ CabrilloLog.new with address := some ("A1".data) } : CabrilloLog).address =
      multiline_append CabrilloLog.new.address (rust_trim ("A1".data)) ∧
    ({ CabrilloLog.new with
        address := some (("A1".data) ++ '\n' :: ("B2".data)) } : CabrilloLog).address =
      multiline_append ({ CabrilloLog.new with
        address := some ("A1".data) } : CabrilloLog).address (rust_trim ("B2".data)) ∧
    ({ CabrilloLog.new with
        address := some ("A1".data)
        callsign := some ("W1AW".data) } : CabrilloLog).address =
      ({ CabrilloLog.new with address := some ("A1".data) } : CabrilloLog).address ∧
    ({ CabrilloLog.new with soapbox := some ("hi".data) } : CabrilloLog).soapbox =
      multiline_append CabrilloLog.new.soapbox (rust_trim ("hi".data)) :=
  ⟨(multiline_accumulation_invariant.2 is_ascii_alpha CabrilloLog.new
      ("ADDRESS".data) ("A1".data)
      ({ CabrilloLog.new with address := some ("A1".data) }) (by rfl)).1 (by decide),
   (multiline_accumulation_invariant.2 is_ascii_alpha
      ({ CabrilloLog.new with address := some ("A1".data) }) ("ADDRESS-CITY".data)
      ("B2".data)
      ({ CabrilloLog.new with address := some (("A1".data) ++ '\n' :: ("B2".data)) })
      (by rfl)).1 (by decide),
   (multiline_accumulation_invariant.2 is_ascii_alpha
      ({ CabrilloLog.new with address := some ("A1".data) }) ("CALLSIGN".data)
      ("W1AW".data)
      ({ CabrilloLog.new with
         address := some ("A1".data)
         callsign := some ("W1AW".data) }) (by rfl)).2.1 (by decide),
   (multiline_accumulation_invariant.2 is_ascii_alpha CabrilloLog.new
      ("SOAPBOX".data) ("hi".data)
      ({ CabrilloLog.new with soapbox := some ("hi".data) }) (by rfl)).2.2.1 (by rfl)⟩
